import Mathlib

set_option linter.unusedVariables false

/-!
# Placement and history utilities of the scheduler (`lib/pacemaker/pcmk_sched_utils.c`)

A shallow embedding of the node eligibility predicate, the node ranking
comparator, the sort built on it, the assignment / deallocation of a primitive
resource, the construction of location constraints and pseudo actions, and the
history recorder, followed by the properties proved about them.

Memory is explicit.  A `pe_node_t` holds a pointer (`details : Nat`) to the
`pe_node_shared_t` record that all copies of one cluster node share; those
records and the resources live in heaps indexed by address.  A C string is a
Lean `String` (the characters before the terminating NUL); a pointer that may
be `NULL` is an `Option`.  The history store is the list of the `lrm_rsc_op`
records of the parent element, and a record returned by pointer is given by its
position in that list.
-/

namespace Pcmk

/-! ## Data model -/

/-- Resource variants (`enum pe_obj_types`); only `pe_native` is accepted by the
assignment functions. -/
inductive pe_obj_types where
  | pe_unknown
  | pe_native
  | pe_group
  | pe_clone
  | pe_container
  deriving DecidableEq, Repr

/-- Resource roles (`enum rsc_role_e`). -/
inductive rsc_role_e where
  | RSC_ROLE_UNKNOWN
  | RSC_ROLE_STOPPED
  | RSC_ROLE_STARTED
  | RSC_ROLE_SLAVE
  | RSC_ROLE_MASTER
  deriving DecidableEq, Repr

/-- The part of a node that every copy shares (`node->details`).  `allocated_rsc`
lists resource addresses; `utilization` is the node's capacity vector, a map from
resource-type name to a non-negative quantity. -/
structure pe_node_shared_t where
  id : String
  uname : String
  online : Bool
  shutdown : Bool
  unclean : Bool
  standby : Bool
  maintenance : Bool
  num_resources : Int
  allocated_rsc : List Nat
  utilization : String → Nat

/-- A node as seen by one resource (`pe_node_t`): a weight, a counter and the
address of the shared details. -/
structure pe_node_t where
  weight : Int
  count : Int
  details : Nat
  deriving DecidableEq, Repr

/-- The flag word of an action, one field per bit the code names.  `clear` is the
`pe_action_clear` bit, which turns a flag update into a removal. -/
structure pe_action_flags where
  pseudo : Bool
  runnable : Bool
  optional : Bool
  processed : Bool
  clear : Bool
  deriving DecidableEq, Repr

/-- A scheduled action (`pe_action_t`): `meta` is the metadata hash table and
`node` the optional target node. -/
structure pe_action_t where
  uuid : String
  task : String
  meta : List (String × String)
  flags : pe_action_flags
  node : Option pe_node_t := none
  deriving DecidableEq, Repr

/-- Discovery modes of a location constraint (`enum pe_discover_e`); the first
value is the one a zeroed constraint holds. -/
inductive pe_discover_e where
  | pe_discover_always
  | pe_discover_never
  | pe_discover_exclusive
  deriving DecidableEq, Repr

/-- A location constraint (`pe__location_t`): `rsc_lh` is the address of the
owning resource, `node_list_rh` the private node copies it holds. -/
structure pe__location_t where
  id : String
  rsc_lh : Nat
  role_filter : rsc_role_e
  discover_mode : pe_discover_e
  node_list_rh : List pe_node_t
  deriving DecidableEq, Repr

/-- A resource (`pe_resource_t`).  `provisional` is the `pe_rsc_provisional` bit
of `flags`; `allocated_to` is the resource's private node copy. -/
structure pe_resource_t where
  id : String
  variant : pe_obj_types
  provisional : Bool
  allocated_to : Option pe_node_t
  next_role : rsc_role_e
  actions : List pe_action_t
  utilization : String → Nat
  rsc_location : List pe__location_t := []
  exclusive_discover : Bool := false

/-- The fields of the working set that the code reads and writes: the placement
strategy and the list of location constraints. -/
structure pe_working_set_t where
  placement_strategy : Option String
  placement_constraints : List pe__location_t := []
  deriving DecidableEq, Repr

/-- The user data handed to the comparator (`struct node_weight_s`). -/
structure node_weight_s where
  active : Option pe_node_t
  data_set : pe_working_set_t
  deriving DecidableEq, Repr

/-- The two heaps: shared node details and resources, by address. -/
structure State where
  details : Nat → pe_node_shared_t
  rscs : Nat → pe_resource_t

/-- The outcome of an executed action (`lrmd_event_data_t`), with the fields the
history recorder reads.  `params` is the parameter hash table, `user_data` the
transition key supplied by the caller. -/
structure lrmd_event_data_t where
  rsc_id : String
  op_type : String
  user_data : Option String
  call_id : Int
  rc : Int
  op_status : Int
  interval_ms : Nat
  t_run : Nat
  t_rcchange : Nat
  exec_time : Nat
  queue_time : Nat
  params : Option (List (String × String))
  exit_reason : Option String
  deriving DecidableEq, Repr

/-- Constants, macros and helpers that `pcmk_sched_utils.c` uses and that are
declared in headers and sources outside `src/`.  They are parameters of the
embedding: nothing is assumed about them. -/
structure Externals where
  INFINITY : Int
  PCMK_OCF_NOT_RUNNING : Int
  XML_LRM_ATTR_INTERVAL_MS : String
  XML_ATTR_TE_TARGET_RC : String
  safe_str_eq : Option String → Option String → Bool
  safe_str_neq : Option String → Option String → Bool
  crm_itoa : Int → String
  compare_capacity : (Nat → pe_node_shared_t) → pe_node_t → pe_node_t → Int
  pe__is_guest_node : (Nat → pe_node_shared_t) → pe_node_t → Bool
  PCMK_LRM_OP_DONE : Int
  PCMK_LRM_OP_PENDING : Int
  CRMD_ACTION_MIGRATE : String
  CRMD_ACTION_MIGRATED : String
  XML_LRM_ATTR_MIGRATE_SOURCE : String
  XML_LRM_ATTR_MIGRATE_TARGET : String
  crm_str_eq : Option String → Option String → Bool → Bool
  generate_op_key : String → String → Nat → String
  generate_notify_key : String → Option String → Option String → Option String
  generate_transition_key : Int → Int → Int → String → String
  did_rsc_op_fail : lrmd_event_data_t → Int → Bool
  crm_meta_value : Option (List (String × String)) → String → Option String
  compare_version : Option String → Option String → Int
  filter_action_parameters : List (String × String) → Option String → List (String × String)
  calculate_operation_digest : List (String × String) → Option String → Option String
  custom_action : State → Option Nat → String → String → Option pe_node_t → Bool → Bool →
    pe_working_set_t → pe_action_t

/-! ## Library functions -/

/-- Comparison of two character sequences as `strcmp` does it: the first
position where they differ decides, and a proper prefix is smaller. -/
def strcmpChars : List Char → List Char → Int
  | [], [] => 0
  | [], _ :: _ => -1
  | _ :: _, [] => 1
  | c :: cs, d :: ds =>
    if c < d then -1 else if d < c then 1 else strcmpChars cs ds

/-- The C library `strcmp`; the standard fixes only the sign of the result, which
is returned here as `-1`, `0` or `1`.  Characters are compared by code point,
which is also the order of their UTF-8 bytes. -/
def strcmp (s1 s2 : String) : Int := strcmpChars s1.data s2.data

/-- The merge step of GLib's list sort (`g_list_sort_merge`): the head of the
first list is taken while the comparison is not positive. -/
def g_list_sort_merge {α : Type} (compare_func : α → α → Int) (l1 l2 : List α) : List α :=
  List.merge l1 l2 (fun x y => decide (compare_func x y ≤ 0))

/-- GLib's `g_list_sort_real`: cut the list after its first `length / 2` cells,
sort both parts and merge them.  The first argument bounds the recursion depth. -/
def g_list_sort_real {α : Type} (compare_func : α → α → Int) : Nat → List α → List α
  | 0, list => list
  | fuel + 1, list =>
    if list.length < 2 then list
    else
      g_list_sort_merge compare_func
        (g_list_sort_real compare_func fuel (list.take (list.length / 2)))
        (g_list_sort_real compare_func fuel (list.drop (list.length / 2)))

/-- GLib's `g_list_sort_with_data`, a stable merge sort; the recursion depth never
exceeds the length of the list. -/
def g_list_sort_with_data {α : Type} (list : List α) (compare_func : α → α → Int) : List α :=
  g_list_sort_real compare_func list.length list

/-- GLib's `g_list_remove`: drop the first cell holding `data`. -/
def g_list_remove (list : List Nat) (data : Nat) : List Nat := list.erase data

/-- GLib's `g_list_prepend`. -/
def g_list_prepend (list : List Nat) (data : Nat) : List Nat := data :: list

/-- GLib's `g_hash_table_lookup` on a string-keyed table. -/
def g_hash_table_lookup (table : List (String × String)) (key : String) : Option String :=
  table.lookup key

/-! ## Eligibility and ranking -/

/-- Whether a node may host resources (`can_run_resources`). -/
def can_run_resources (d : Nat → pe_node_shared_t) (node : Option pe_node_t) : Bool :=
  match node with
  | none => false
  | some n =>
    if (d n.details).online == false
        || (d n.details).shutdown || (d n.details).unclean
        || (d n.details).standby || (d n.details).maintenance then
      false
    else
      true

/-- The comparator of the node sort (`sort_node_weight`): negative when `a` is
preferred, positive when `b` is. -/
def sort_node_weight (E : Externals) (d : Nat → pe_node_shared_t)
    (a b : Option pe_node_t) (nw : node_weight_s) : Int :=
  match a with
  | none => 1
  | some node1 =>
    match b with
    | none => -1
    | some node2 =>
      let node1_weight :=
        if can_run_resources d (some node1) = false then -E.INFINITY else node1.weight
      let node2_weight :=
        if can_run_resources d (some node2) = false then -E.INFINITY else node2.weight
      if node1_weight > node2_weight then -1
      else if node1_weight < node2_weight then 1
      else if E.safe_str_eq nw.data_set.placement_strategy (some "minimal") then
        strcmp (d node1.details).uname (d node2.details).uname
      else
        let result :=
          if E.safe_str_eq nw.data_set.placement_strategy (some "balanced") then
            E.compare_capacity d node1 node2
          else 0
        if result < 0 then -1
        else if result > 0 then 1
        else if (d node1.details).num_resources < (d node2.details).num_resources then -1
        else if (d node1.details).num_resources > (d node2.details).num_resources then 1
        else
          match nw.active with
          | some act =>
            if act.details = node1.details then -1
            else if act.details = node2.details then 1
            else strcmp (d node1.details).uname (d node2.details).uname
          | none => strcmp (d node1.details).uname (d node2.details).uname

/-- Sort a node list by preference (`sort_nodes_by_weight`). -/
def sort_nodes_by_weight (E : Externals) (d : Nat → pe_node_shared_t)
    (nodes : List (Option pe_node_t)) (active_node : Option pe_node_t)
    (data_set : pe_working_set_t) : List (Option pe_node_t) :=
  let nw : node_weight_s := { active := active_node, data_set := data_set }
  g_list_sort_with_data nodes (fun a b => sort_node_weight E d a b nw)

/-! ## Assignment of a primitive resource -/

/-- Modelled from the spec: the macro `RSC_STOP` is declared outside `src/`;
section 4.4 names the task "stop". -/
def RSC_STOP : String := "stop"

/-- Modelled from the spec: the macro `RSC_START` is declared outside `src/`;
section 4.4 names the task "start". -/
def RSC_START : String := "start"

/-- The mask with only the `pe_action_optional` bit. -/
def pe_action_optional : pe_action_flags :=
  { pseudo := false, runnable := false, optional := true, processed := false, clear := false }

/-- The mask with only the `pe_action_runnable` bit. -/
def pe_action_runnable : pe_action_flags :=
  { pseudo := false, runnable := true, optional := false, processed := false, clear := false }

/-- The mask with only the `pe_action_pseudo` bit. -/
def pe_action_pseudo : pe_action_flags :=
  { pseudo := true, runnable := false, optional := false, processed := false, clear := false }

/-- The mask with only the `pe_action_clear` bit. -/
def pe_action_clear : pe_action_flags :=
  { pseudo := false, runnable := false, optional := false, processed := false, clear := true }

/-- Bitwise or of two flag words (`a | b`). -/
def pe_action_flags.or (a b : pe_action_flags) : pe_action_flags :=
  { pseudo := a.pseudo || b.pseudo, runnable := a.runnable || b.runnable,
    optional := a.optional || b.optional, processed := a.processed || b.processed,
    clear := a.clear || b.clear }

/-- Removal of the bits of a mask from a flag word (`a & ~b`). -/
def pe_action_flags.andNot (a b : pe_action_flags) : pe_action_flags :=
  { pseudo := a.pseudo && !b.pseudo, runnable := a.runnable && !b.runnable,
    optional := a.optional && !b.optional, processed := a.processed && !b.processed,
    clear := a.clear && !b.clear }

/-- Modelled from the spec: `update_action_flags` is defined outside `src/`.
Section 4.5: flags are an independent boolean set per action, mutated through a
uniform set/clear operation.  A mask carrying `pe_action_clear` removes its bits
from the action, any other mask adds them. -/
def update_action_flags (action : pe_action_t) (flags : pe_action_flags) : pe_action_t :=
  if flags.clear then { action with flags := action.flags.andNot flags }
  else { action with flags := action.flags.or flags }

/-- Modelled from the spec: `node_copy` is defined outside `src/`.  Section 3: a
private copy of the node is made whenever it is attached to an assignment; the
copy is a separate object with the same fields, sharing the node's details. -/
def node_copy (this_node : pe_node_t) : pe_node_t :=
  { weight := this_node.weight, count := this_node.count, details := this_node.details }

/-- Modelled from the spec: `calculate_utilization` is defined outside `src/`.
Section 4.3: reserving adds the resource's capacity vector to the node's
utilization and releasing subtracts the identical vector, over non-negative
quantities.  `native_assign_node` reserves with `plus = FALSE` and
`native_deallocate` releases with `plus = TRUE`. -/
def calculate_utilization (current_utilization utilization : String → Nat)
    (plus : Bool) : String → Nat :=
  fun key =>
    if plus then current_utilization key - utilization key
    else current_utilization key + utilization key

/-- Store a resource at an address. -/
def State.set_rsc (st : State) (p : Nat) (r : pe_resource_t) : State :=
  { st with rscs := fun q => if q = p then r else st.rscs q }

/-- Store node details at an address. -/
def State.set_details (st : State) (p : Nat) (n : pe_node_shared_t) : State :=
  { st with details := fun q => if q = p then n else st.details q }

/-- Release the node a resource is assigned to (`native_deallocate`); `rsc` is
the address of the resource. -/
def native_deallocate (st : State) (rsc : Nat) : State :=
  match (st.rscs rsc).allocated_to with
  | none => st
  | some old =>
    let st1 := st.set_rsc rsc { st.rscs rsc with provisional := true, allocated_to := none }
    let od := st1.details old.details
    st1.set_details old.details
      { od with
        allocated_rsc := g_list_remove od.allocated_rsc rsc
        num_resources := od.num_resources - 1
        utilization := calculate_utilization od.utilization (st1.rscs rsc).utilization true }

/-- The reconciliation of one action when no node could be chosen (the body of
the loop over `rsc->actions` in `native_assign_node`). -/
def unassigned_action (E : Externals) (op : pe_action_t) : pe_action_t :=
  let rc_inactive := E.crm_itoa E.PCMK_OCF_NOT_RUNNING
  let interval_ms_s := g_hash_table_lookup op.meta E.XML_LRM_ATTR_INTERVAL_MS
  if E.safe_str_eq (some RSC_STOP) (some op.task) then
    update_action_flags op (pe_action_optional.or pe_action_clear)
  else if E.safe_str_eq (some RSC_START) (some op.task) then
    update_action_flags op (pe_action_runnable.or pe_action_clear)
  else if interval_ms_s.isSome && E.safe_str_neq interval_ms_s (some "0") then
    if E.safe_str_eq (some rc_inactive) (g_hash_table_lookup op.meta E.XML_ATTR_TE_TARGET_RC) then
      op
    else
      update_action_flags op (pe_action_runnable.or pe_action_clear)
  else
    op

/-- What a call of `native_assign_node` leaves behind: the returned boolean, the
heaps, and the caller's node object `*chosen` (its `count` is incremented on
success). -/
structure assign_result where
  rc : Bool
  st : State
  chosen : Option pe_node_t

/-- Assign a primitive resource to `chosen`, or to nothing (`native_assign_node`).
`rsc` is the address of the resource; `none` is the failed `CRM_ASSERT` on the
variant.  The caller's node object is passed by value and returned in the
result. -/
def native_assign_node (E : Externals) (st : State) (rsc : Nat) (nodes : List pe_node_t)
    (chosen : Option pe_node_t) (force : Bool) : Option assign_result :=
  if (st.rscs rsc).variant ≠ pe_obj_types.pe_native then none
  else
    let unset : Bool :=
      match chosen with
      | none => false
      | some c =>
        if force = false then
          if c.weight < 0 then true
          else if !can_run_resources st.details (some c) && !E.pe__is_guest_node st.details c then
            true
          else false
        else false
    let st1 :=
      if unset then st.set_rsc rsc { st.rscs rsc with next_role := rsc_role_e.RSC_ROLE_STOPPED }
      else st
    let chosen1 := if unset then none else chosen
    let st2 := native_deallocate st1 rsc
    let st3 := st2.set_rsc rsc { st2.rscs rsc with provisional := false }
    match chosen1 with
    | none =>
      let r := st3.rscs rsc
      some
        { rc := false
          st := st3.set_rsc rsc
            { r with
              next_role := rsc_role_e.RSC_ROLE_STOPPED
              actions := r.actions.map (unassigned_action E) }
          chosen := chosen }
    | some c =>
      let st4 := st3.set_rsc rsc { st3.rscs rsc with allocated_to := some (node_copy c) }
      let cd := st4.details c.details
      some
        { rc := true
          st := st4.set_details c.details
            { cd with
              allocated_rsc := g_list_prepend cd.allocated_rsc rsc
              num_resources := cd.num_resources + 1
              utilization := calculate_utilization cd.utilization (st4.rscs rsc).utilization false }
          chosen := some { c with count := c.count + 1 } }

/-! ## Location constraints and pseudo actions -/

/-- What a call of `rsc2node_new` leaves behind: the returned constraint (`none`
for `NULL`), the heaps and the working set. -/
structure rsc2node_result where
  new_con : Option pe__location_t
  st : State
  data_set : pe_working_set_t

/-- Build a location constraint for a resource (`rsc2node_new`).  `rsc` is the
address of the resource; the allocation of the constraint is taken to succeed. -/
def rsc2node_new (E : Externals) (st : State) (id : Option String) (rsc : Option Nat)
    (node_weight : Int) (discover_mode : Option String) (foo_node : Option pe_node_t)
    (data_set : pe_working_set_t) : rsc2node_result :=
  match rsc, id with
  | some r, some i =>
    if foo_node.isNone && node_weight != 0 then
      { new_con := none, st := st, data_set := data_set }
    else
      let always : Bool := discover_mode.isNone || E.safe_str_eq discover_mode (some "always")
      let never : Bool := !always && E.safe_str_eq discover_mode (some "never")
      let exclusive : Bool :=
        !always && !never && E.safe_str_eq discover_mode (some "exclusive")
      let new_con : pe__location_t :=
        { id := i
          rsc_lh := r
          role_filter := rsc_role_e.RSC_ROLE_UNKNOWN
          discover_mode :=
            if always then pe_discover_e.pe_discover_always
            else if never then pe_discover_e.pe_discover_never
            else if exclusive then pe_discover_e.pe_discover_exclusive
            else pe_discover_e.pe_discover_always
          node_list_rh :=
            match foo_node with
            | some n => [{ node_copy n with weight := node_weight }]
            | none => [] }
      let st1 := if exclusive then st.set_rsc r { st.rscs r with exclusive_discover := true } else st
      { new_con := some new_con
        st := st1.set_rsc r { st1.rscs r with rsc_location := new_con :: (st1.rscs r).rsc_location }
        data_set :=
          { data_set with placement_constraints := new_con :: data_set.placement_constraints } }
  | _, _ => { new_con := none, st := st, data_set := data_set }

/-- Build a pseudo action for a resource (`create_pseudo_resource_op`); the value
is the action object the function returns.  `rsc` is the address of the resource. -/
def create_pseudo_resource_op (E : Externals) (st : State) (rsc : Nat) (task : String)
    (optional runnable : Bool) (data_set : pe_working_set_t) : pe_action_t :=
  let action :=
    E.custom_action st (some rsc) (E.generate_op_key (st.rscs rsc).id task 0) task none
      optional true data_set
  let action := update_action_flags action pe_action_pseudo
  let action := update_action_flags action pe_action_runnable
  if runnable then update_action_flags action pe_action_runnable else action

/-! ## History records -/

/-- Names of the attributes of a history record.  The names are macros declared
outside `src/`; each macro is one constructor, so that different macros name
different attributes, and `other` stands for every attribute the recorder does
not write. -/
inductive xml_attr where
  | XML_ATTR_ID
  | XML_LRM_ATTR_TASK_KEY
  | XML_LRM_ATTR_TASK
  | XML_ATTR_ORIGIN
  | XML_ATTR_CRM_VERSION
  | XML_ATTR_TRANSITION_KEY
  | XML_ATTR_TRANSITION_MAGIC
  | XML_LRM_ATTR_EXIT_REASON
  | XML_LRM_ATTR_TARGET
  | XML_LRM_ATTR_CALLID
  | XML_LRM_ATTR_RC
  | XML_LRM_ATTR_OPSTATUS
  | XML_LRM_ATTR_INTERVAL_MS
  | XML_RSC_OP_LAST_RUN
  | XML_RSC_OP_LAST_CHANGE
  | XML_RSC_OP_T_EXEC
  | XML_RSC_OP_T_QUEUE
  | XML_LRM_ATTR_MIGRATE_SOURCE
  | XML_LRM_ATTR_MIGRATE_TARGET
  | XML_LRM_ATTR_OP_DIGEST
  | other (name : String)
  deriving DecidableEq, Repr

/-- A history record (an `lrm_rsc_op` element): its attributes by name.  The store
handed to the recorder (`parent`) is the list of its `lrm_rsc_op` children, in
document order. -/
structure xmlNode where
  attrs : xml_attr → Option String

/-- An element without attributes. -/
def xml_empty : xmlNode := { attrs := fun _ => none }

/-- Modelled from the spec: `crm_element_value` is defined outside `src/`; it
reads one attribute of a record (section 3, a record holds its status, return
code, magic and digest). -/
def crm_element_value (data : xmlNode) (name : xml_attr) : Option String := data.attrs name

/-- Modelled from the spec: `crm_xml_add` is defined outside `src/`.  Section 5:
recording is an overwrite, last write wins per key; the attribute takes the
given value, and a `NULL` value writes nothing. -/
def crm_xml_add (node : xmlNode) (name : xml_attr) (value : Option String) : xmlNode :=
  match value with
  | none => node
  | some v => { attrs := fun a => if a = name then some v else node.attrs a }

/-- Modelled from the spec: `crm_xml_add_int` is defined outside `src/`; it
writes the decimal rendering of an integer (section 4.6, writes call id, return
code and status). -/
def crm_xml_add_int (E : Externals) (node : xmlNode) (name : xml_attr) (value : Int) : xmlNode :=
  crm_xml_add node name (some (E.crm_itoa value))

/-- Modelled from the spec: `crm_xml_add_ms` is defined outside `src/`; it writes
the decimal rendering of an interval in milliseconds (section 4.6, writes the
interval). -/
def crm_xml_add_ms (E : Externals) (node : xmlNode) (name : xml_attr) (ms : Nat) : xmlNode :=
  crm_xml_add node name (some (E.crm_itoa ms))

/-- Whether a record answers a search for `id`: any record does when `id` is
`NULL`, otherwise the record whose id attribute is `id`. -/
def id_matches (id : Option String) (x : xmlNode) : Bool :=
  match id with
  | none => true
  | some k => decide (crm_element_value x xml_attr.XML_ATTR_ID = some k)

/-- Modelled from the spec: `find_entity` is defined outside `src/`.  Section 4.6:
locates an existing record at that key; the result is the position of the first
record with the given id, `none` when there is none. -/
def find_entity : List xmlNode → Option String → Option Nat
  | [], _ => none
  | a :: rest, id =>
    if id_matches id a then some 0 else (find_entity rest id).map (fun i => i + 1)

/-- Modelled from the spec: `create_xml_node` is defined outside `src/`.  Section
4.6: or creates one; a record without attributes is added after the existing
ones, and its position is returned. -/
def create_xml_node (parent : List xmlNode) : List xmlNode × Nat :=
  (parent ++ [xml_empty], parent.length)

/-- Modelled from the spec: `hash2field` is defined outside `src/`; it copies one
entry of the parameter mapping into the parameter list unless the name is
already there (section 4.6, the digest is computed from the parameter mapping). -/
def hash2field (xml_node : List (String × String)) (key value : String) :
    List (String × String) :=
  if (xml_node.lookup key).isNone then xml_node ++ [(key, value)] else xml_node

/-- The value of an `unsigned int` passed where an `int` is expected. -/
def uint_as_int (u : Nat) : Int :=
  if u % 2 ^ 32 < 2 ^ 31 then (u % 2 ^ 32 : Nat) else (u % 2 ^ 32 : Nat) - 2 ^ 32

/-- Rendering of an integer by the `%d` conversion of `printf`. -/
def printf_d (i : Int) : String := toString i

/-- Modelled from the spec: the macro `CRMD_ACTION_START` is declared outside
`src/`; section 4.6 records a successful reload as "start". -/
def CRMD_ACTION_START : String := "start"

/-- Modelled from the spec: the macro `CRMD_ACTION_STATUS` is declared outside
`src/`; section 4.6 records a failed reload as "status" (monitor). -/
def CRMD_ACTION_STATUS : String := "monitor"

/-- Modelled from the spec: the macro `CRMD_ACTION_NOTIFY` is declared outside
`src/`; section 4.6 names the notify-type outcomes. -/
def CRMD_ACTION_NOTIFY : String := "notify"

/-- The filler transition id (`FAKE_TE_ID`). -/
def FAKE_TE_ID : String := "xxxxxxxx-xxxx-xxxx-xxxx-xxxxxxxxxxxx"

/-- The transition magic `"<status>:<rc>;<key>"` (`generate_transition_magic`);
`none` is the `NULL` returned for a missing key. -/
def generate_transition_magic (transition_key : Option String) (op_status op_rc : Int) :
    Option String :=
  match transition_key with
  | none => none
  | some k => some (printf_d op_status ++ ":" ++ printf_d op_rc ++ ";" ++ k)

/-- The `syslog` level `LOG_DEBUG`. -/
def LOG_DEBUG : Int := 7

/-- Add the parameter digest to a record (`append_digest`). -/
def append_digest (E : Externals) (op : lrmd_event_data_t) (update : xmlNode)
    (version : Option String) (magic : Option String) (level : Int) : xmlNode :=
  match op.params with
  | none => update
  | some params =>
    let args_xml := params.foldl (fun xml kv => hash2field xml kv.1 kv.2) []
    let args_xml := E.filter_action_parameters args_xml version
    let digest := E.calculate_operation_digest args_xml version
    crm_xml_add update xml_attr.XML_LRM_ATTR_OP_DIGEST digest

/-- The task a record is filed under (lines 551 to 562 of
`pcmk__create_history_xml`): a reload becomes a start when its status is done
and a monitor otherwise. -/
def history_task (E : Externals) (op : lrmd_event_data_t) : String :=
  if E.crm_str_eq (some op.op_type) (some "reload") true then
    if op.op_status = E.PCMK_LRM_OP_DONE then CRMD_ACTION_START else CRMD_ACTION_STATUS
  else op.op_type

/-- What the key selection of `pcmk__create_history_xml` (lines 565 to 596)
leaves: the id of the record to write, the id of a second record if any, the
exit reason to record, and the outcome, whose status and return code a notify
outcome that is not pending has reset. -/
structure history_key where
  op_id : Option String
  op_id_additional : Option String
  exit_reason : Option String
  op : lrmd_event_data_t

/-- The key selection of `pcmk__create_history_xml` (lines 565 to 596). -/
def history_select_key (E : Externals) (op : lrmd_event_data_t) (target_rc : Int)
    (task key : String) : history_key :=
  if E.crm_str_eq (some task) (some CRMD_ACTION_NOTIFY) true then
    let n_type := E.crm_meta_value op.params "notify_type"
    let n_task := E.crm_meta_value op.params "notify_operation"
    { op_id := E.generate_notify_key op.rsc_id n_type n_task
      op_id_additional := none
      exit_reason := none
      op :=
        if op.op_status ≠ E.PCMK_LRM_OP_PENDING then
          { op with op_status := E.PCMK_LRM_OP_DONE, rc := 0 }
        else op }
  else if E.did_rsc_op_fail op target_rc then
    { op_id := some (E.generate_op_key op.rsc_id "last_failure" 0)
      op_id_additional :=
        if op.interval_ms = 0 then some (E.generate_op_key op.rsc_id "last" 0) else none
      exit_reason := op.exit_reason
      op := op }
  else if op.interval_ms > 0 then
    { op_id := some key, op_id_additional := none, exit_reason := none, op := op }
  else
    { op_id := some (E.generate_op_key op.rsc_id "last" 0)
      op_id_additional := none, exit_reason := none, op := op }

/-- The attributes written to a record in one pass of `pcmk__create_history_xml`
(lines 616 to 669). -/
def history_fill (E : Externals) (op : lrmd_event_data_t) (op_id : Option String)
    (key task user_data : String) (magic exit_reason caller_version node origin : Option String)
    (xml_op : xmlNode) : xmlNode :=
  let xml_op := crm_xml_add xml_op xml_attr.XML_ATTR_ID op_id
  let xml_op := crm_xml_add xml_op xml_attr.XML_LRM_ATTR_TASK_KEY (some key)
  let xml_op := crm_xml_add xml_op xml_attr.XML_LRM_ATTR_TASK (some task)
  let xml_op := crm_xml_add xml_op xml_attr.XML_ATTR_ORIGIN origin
  let xml_op := crm_xml_add xml_op xml_attr.XML_ATTR_CRM_VERSION caller_version
  let xml_op := crm_xml_add xml_op xml_attr.XML_ATTR_TRANSITION_KEY (some user_data)
  let xml_op := crm_xml_add xml_op xml_attr.XML_ATTR_TRANSITION_MAGIC magic
  let xml_op := crm_xml_add xml_op xml_attr.XML_LRM_ATTR_EXIT_REASON (some (exit_reason.getD ""))
  let xml_op := crm_xml_add xml_op xml_attr.XML_LRM_ATTR_TARGET node
  let xml_op := crm_xml_add_int E xml_op xml_attr.XML_LRM_ATTR_CALLID op.call_id
  let xml_op := crm_xml_add_int E xml_op xml_attr.XML_LRM_ATTR_RC op.rc
  let xml_op := crm_xml_add_int E xml_op xml_attr.XML_LRM_ATTR_OPSTATUS op.op_status
  let xml_op := crm_xml_add_ms E xml_op xml_attr.XML_LRM_ATTR_INTERVAL_MS op.interval_ms
  let xml_op :=
    if E.compare_version (some "2.1") caller_version ≤ 0 then
      if op.t_run ≠ 0 ∨ op.t_rcchange ≠ 0 ∨ op.exec_time ≠ 0 ∨ op.queue_time ≠ 0 then
        let xml_op :=
          if op.interval_ms = 0 then
            crm_xml_add_int E
              (crm_xml_add_int E xml_op xml_attr.XML_RSC_OP_LAST_RUN (uint_as_int op.t_run))
              xml_attr.XML_RSC_OP_LAST_CHANGE (uint_as_int op.t_run)
          else if op.t_rcchange ≠ 0 then
            crm_xml_add_int E xml_op xml_attr.XML_RSC_OP_LAST_CHANGE (uint_as_int op.t_rcchange)
          else
            crm_xml_add_int E xml_op xml_attr.XML_RSC_OP_LAST_CHANGE (uint_as_int op.t_run)
        let xml_op :=
          crm_xml_add_int E xml_op xml_attr.XML_RSC_OP_T_EXEC (uint_as_int op.exec_time)
        crm_xml_add_int E xml_op xml_attr.XML_RSC_OP_T_QUEUE (uint_as_int op.queue_time)
      else xml_op
    else xml_op
  let xml_op :=
    if E.crm_str_eq (some op.op_type) (some E.CRMD_ACTION_MIGRATE) true
        || E.crm_str_eq (some op.op_type) (some E.CRMD_ACTION_MIGRATED) true then
      crm_xml_add
        (crm_xml_add xml_op xml_attr.XML_LRM_ATTR_MIGRATE_SOURCE
          (E.crm_meta_value op.params E.XML_LRM_ATTR_MIGRATE_SOURCE))
        xml_attr.XML_LRM_ATTR_MIGRATE_TARGET
        (E.crm_meta_value op.params E.XML_LRM_ATTR_MIGRATE_TARGET)
    else xml_op
  append_digest E op xml_op caller_version magic LOG_DEBUG

/-- One pass through the label `again` of `pcmk__create_history_xml` (lines 598
to 669): find the record with the given id or create it, then write its
attributes.  The result is the store and the position of the record. -/
def history_pass (parent : List xmlNode) (op_id : Option String) (fill : xmlNode → xmlNode) :
    List xmlNode × Nat :=
  let found :=
    match find_entity parent op_id with
    | some i => (parent, i)
    | none => create_xml_node parent
  (found.1.set found.2 (fill (found.1.getD found.2 xml_empty)), found.2)

/-- What a call of `pcmk__create_history_xml` leaves behind: the store, the
outcome object, and the position in the store of the returned record (`none` for
`NULL`). -/
structure history_result where
  parent : List xmlNode
  op : Option lrmd_event_data_t
  xml_op : Option Nat

/-- Record the outcome of an action in the history (`pcmk__create_history_xml`).
`op = none` is the `NULL` outcome rejected by the `CRM_CHECK` of line 544. -/
def pcmk__create_history_xml (E : Externals) (parent : List xmlNode)
    (op : Option lrmd_event_data_t) (caller_version : Option String) (target_rc : Int)
    (node origin : Option String) (level : Int) : history_result :=
  match op with
  | none => { parent := parent, op := none, xml_op := none }
  | some op0 =>
    let task := history_task E op0
    let key := E.generate_op_key op0.rsc_id task op0.interval_ms
    let sel := history_select_key E op0 target_rc task key
    let user_data :=
      match sel.op.user_data with
      | some u => u
      | none => E.generate_transition_key (-1) sel.op.call_id target_rc FAKE_TE_ID
    let magic := generate_transition_magic (some user_data) sel.op.op_status sel.op.rc
    let first :=
      history_pass parent sel.op_id
        (history_fill E sel.op sel.op_id key task user_data magic sel.exit_reason
          caller_version node origin)
    let last :=
      match sel.op_id_additional with
      | some op_id =>
        history_pass first.1 (some op_id)
          (history_fill E sel.op (some op_id) key task user_data magic sel.exit_reason
            caller_version node origin)
      | none => first
    { parent := last.1, op := some sel.op, xml_op := some last.2 }

/-! ## Notions used to state the properties -/

/-- The weight the comparator works with: the nominal weight of a node that can
run resources, minus infinity for any other node (lines 112 to 120). -/
def effective_weight (E : Externals) (d : Nat → pe_node_shared_t) (n : pe_node_t) : Int :=
  if can_run_resources d (some n) = false then -E.INFINITY else n.weight

/-- Whether `n` is the node the resource is currently assigned to, that is
whether `nw->active` is set and shares its details with `n`. -/
def is_active (nw : node_weight_s) (n : pe_node_t) : Bool :=
  match nw.active with
  | some act => decide (act.details = n.details)
  | none => false

/-- The name of a node, read through its details pointer. -/
def node_name (d : Nat → pe_node_shared_t) (n : pe_node_t) : String := (d n.details).uname

/-- The last three steps of the comparator (lines 154 to 181): fewer assigned
resources first, then the current assignment, then the name. -/
def tie_break (d : Nat → pe_node_shared_t) (nw : node_weight_s) (a b : pe_node_t) : Int :=
  if (d a.details).num_resources < (d b.details).num_resources then -1
  else if (d a.details).num_resources > (d b.details).num_resources then 1
  else if is_active nw a then -1
  else if is_active nw b then 1
  else strcmp (node_name d a) (node_name d b)

/-- What the comparator returns for two nodes of equal effective weight when the
capacity comparison is not consulted: the name under the minimal strategy, the
tie-break otherwise. -/
def tail_cmp (E : Externals) (d : Nat → pe_node_shared_t) (nw : node_weight_s)
    (a b : pe_node_t) : Int :=
  if E.safe_str_eq nw.data_set.placement_strategy (some "minimal") then
    strcmp (node_name d a) (node_name d b)
  else tie_break d nw a b

/-- The id attribute of a record. -/
def record_id (x : xmlNode) : Option String := crm_element_value x xml_attr.XML_ATTR_ID

/-- The ids of the records of a store, in order. -/
def record_ids (parent : List xmlNode) : List (Option String) := parent.map record_id

/-- The key selection as section 4.6 of the specification words it: a notify
outcome keys by resource, notify type and notify operation; a failing outcome
keys as "last_failure"; a recurring outcome keys by its task and interval; every
other outcome keys as "last". -/
def key_selection_reference (E : Externals) (op : lrmd_event_data_t) (target_rc : Int) :
    Option String :=
  if E.crm_str_eq (some (history_task E op)) (some CRMD_ACTION_NOTIFY) true then
    E.generate_notify_key op.rsc_id (E.crm_meta_value op.params "notify_type")
      (E.crm_meta_value op.params "notify_operation")
  else if E.did_rsc_op_fail op target_rc then
    some (E.generate_op_key op.rsc_id "last_failure" 0)
  else if 0 < op.interval_ms then
    some (E.generate_op_key op.rsc_id (history_task E op) op.interval_ms)
  else
    some (E.generate_op_key op.rsc_id "last" 0)

/-- The key selection `pcmk__create_history_xml` makes for an outcome. -/
def history_selection (E : Externals) (op : lrmd_event_data_t) (target_rc : Int) : history_key :=
  history_select_key E op target_rc (history_task E op)
    (E.generate_op_key op.rsc_id (history_task E op) op.interval_ms)

/-- The transition key `pcmk__create_history_xml` records for an outcome: the one
supplied with it, or the generated filler. -/
def history_user_data (E : Externals) (op : lrmd_event_data_t) (target_rc : Int) : String :=
  match (history_selection E op target_rc).op.user_data with
  | some u => u
  | none =>
    E.generate_transition_key (-1) (history_selection E op target_rc).op.call_id target_rc
      FAKE_TE_ID

/-- The transition magic `pcmk__create_history_xml` records for an outcome. -/
def history_magic (E : Externals) (op : lrmd_event_data_t) (target_rc : Int) : Option String :=
  generate_transition_magic (some (history_user_data E op target_rc))
    (history_selection E op target_rc).op.op_status (history_selection E op target_rc).op.rc

/-- The attribute writes `pcmk__create_history_xml` makes for an outcome on the
record with id `op_id`. -/
def history_fill_of (E : Externals) (op : lrmd_event_data_t) (caller_version : Option String)
    (target_rc : Int) (node origin : Option String) (op_id : Option String) :
    xmlNode → xmlNode :=
  history_fill E (history_selection E op target_rc).op op_id
    (E.generate_op_key op.rsc_id (history_task E op) op.interval_ms) (history_task E op)
    (history_user_data E op target_rc) (history_magic E op target_rc)
    (history_selection E op target_rc).exit_reason caller_version node origin

/-- The pass `history_pass` as one recursion over the store: the first record
answering to `id` is rewritten, and when there is none a new record is added at
the end. -/
def write_entity (fill : xmlNode → xmlNode) (id : Option String) :
    List xmlNode → List xmlNode × Nat
  | [] => ([fill xml_empty], 0)
  | a :: rest =>
    if id_matches id a then (fill a :: rest, 0)
    else (a :: (write_entity fill id rest).1, (write_entity fill id rest).2 + 1)

/-- The first record answering to `id` exists and is left as it is by `fill`. -/
def first_match_fixed (fill : xmlNode → xmlNode) (id : Option String) : List xmlNode → Prop
  | [] => False
  | a :: rest => if id_matches id a then fill a = a else first_match_fixed fill id rest

/-- A sequence of attribute writes applied to a record, in order. -/
def apply_writes (writes : List (xml_attr × Option String)) (x : xmlNode) : xmlNode :=
  writes.foldl (fun n w => crm_xml_add n w.1 w.2) x

/-- The value a sequence of writes leaves in an attribute: that of the last write
to it that carries a value, `none` when there is no such write. -/
def written : List (xml_attr × Option String) → xml_attr → Option String
  | [], _ => none
  | (b, v) :: rest, a =>
    match written rest a with
    | some w => some w
    | none => if b = a then v else none

/-- The writes of `history_fill` that are made for every outcome. -/
def history_base_writes (E : Externals) (op : lrmd_event_data_t) (op_id : Option String)
    (key task user_data : String) (magic exit_reason caller_version node origin : Option String) :
    List (xml_attr × Option String) :=
  [(xml_attr.XML_ATTR_ID, op_id),
   (xml_attr.XML_LRM_ATTR_TASK_KEY, some key),
   (xml_attr.XML_LRM_ATTR_TASK, some task),
   (xml_attr.XML_ATTR_ORIGIN, origin),
   (xml_attr.XML_ATTR_CRM_VERSION, caller_version),
   (xml_attr.XML_ATTR_TRANSITION_KEY, some user_data),
   (xml_attr.XML_ATTR_TRANSITION_MAGIC, magic),
   (xml_attr.XML_LRM_ATTR_EXIT_REASON, some (exit_reason.getD "")),
   (xml_attr.XML_LRM_ATTR_TARGET, node),
   (xml_attr.XML_LRM_ATTR_CALLID, some (E.crm_itoa op.call_id)),
   (xml_attr.XML_LRM_ATTR_RC, some (E.crm_itoa op.rc)),
   (xml_attr.XML_LRM_ATTR_OPSTATUS, some (E.crm_itoa op.op_status)),
   (xml_attr.XML_LRM_ATTR_INTERVAL_MS, some (E.crm_itoa op.interval_ms))]

/-- The writes of `history_fill` that depend on the outcome: timing, migration
source and target, digest. -/
def history_extra_writes (E : Externals) (op : lrmd_event_data_t)
    (caller_version : Option String) : List (xml_attr × Option String) :=
  (if E.compare_version (some "2.1") caller_version ≤ 0 ∧
      (op.t_run ≠ 0 ∨ op.t_rcchange ≠ 0 ∨ op.exec_time ≠ 0 ∨ op.queue_time ≠ 0) then
    (if op.interval_ms = 0 then
      [(xml_attr.XML_RSC_OP_LAST_RUN, some (E.crm_itoa (uint_as_int op.t_run))),
       (xml_attr.XML_RSC_OP_LAST_CHANGE, some (E.crm_itoa (uint_as_int op.t_run)))]
    else if op.t_rcchange ≠ 0 then
      [(xml_attr.XML_RSC_OP_LAST_CHANGE, some (E.crm_itoa (uint_as_int op.t_rcchange)))]
    else
      [(xml_attr.XML_RSC_OP_LAST_CHANGE, some (E.crm_itoa (uint_as_int op.t_run)))]) ++
    [(xml_attr.XML_RSC_OP_T_EXEC, some (E.crm_itoa (uint_as_int op.exec_time))),
     (xml_attr.XML_RSC_OP_T_QUEUE, some (E.crm_itoa (uint_as_int op.queue_time)))]
  else []) ++
  (if (E.crm_str_eq (some op.op_type) (some E.CRMD_ACTION_MIGRATE) true
      || E.crm_str_eq (some op.op_type) (some E.CRMD_ACTION_MIGRATED) true) = true then
    [(xml_attr.XML_LRM_ATTR_MIGRATE_SOURCE,
        E.crm_meta_value op.params E.XML_LRM_ATTR_MIGRATE_SOURCE),
     (xml_attr.XML_LRM_ATTR_MIGRATE_TARGET,
        E.crm_meta_value op.params E.XML_LRM_ATTR_MIGRATE_TARGET)]
  else []) ++
  (match op.params with
   | none => []
   | some params =>
     [(xml_attr.XML_LRM_ATTR_OP_DIGEST,
        E.calculate_operation_digest
          (E.filter_action_parameters
            (params.foldl (fun xml kv => hash2field xml kv.1 kv.2) []) caller_version)
          caller_version)])

/-- The action is recurring in the sense of the loop of `native_assign_node`: its
metadata holds an interval and `safe_str_neq` tells that interval from "0". -/
def is_recurring (E : Externals) (op : pe_action_t) : Bool :=
  (g_hash_table_lookup op.meta E.XML_LRM_ATTR_INTERVAL_MS).isSome &&
    E.safe_str_neq (g_hash_table_lookup op.meta E.XML_LRM_ATTR_INTERVAL_MS) (some "0")

/-- The expected-result metadata of the action equals the rendering of the
"not running" code, as tested by the loop of `native_assign_node`. -/
def expects_not_running (E : Externals) (op : pe_action_t) : Bool :=
  E.safe_str_eq (some (E.crm_itoa E.PCMK_OCF_NOT_RUNNING))
    (g_hash_table_lookup op.meta E.XML_ATTR_TE_TARGET_RC)

/-- Ledger consistency of a state: every node's `num_resources` is the length of
its `allocated_rsc` list, a resource is in the list of a node exactly when its
`allocated_to` refers to that node, and no list holds a resource twice. -/
def ledger_consistent (st : State) : Prop :=
  (∀ p, (st.details p).num_resources = ((st.details p).allocated_rsc.length : Int)) ∧
  (∀ r p, r ∈ (st.details p).allocated_rsc ↔
    ∃ n, (st.rscs r).allocated_to = some n ∧ n.details = p) ∧
  (∀ p, (st.details p).allocated_rsc.Nodup)

/-- No node counts a negative number of resources and no resource is in the
lists of two nodes. -/
def ledger_sound (st : State) : Prop :=
  (∀ p, 0 ≤ (st.details p).num_resources) ∧
  (∀ r p q, r ∈ (st.details p).allocated_rsc → r ∈ (st.details q).allocated_rsc → p = q)

/-! ## Concrete inputs -/

/-- A concrete choice of the external declarations: one million as infinity,
null-safe string equality, decimal rendering of integers, no capacity preference
and no guest nodes; operation keys of the form `rsc_task_interval`, an outcome
failed when its return code is not the expected one, a digest that renders the
parameters, and a `custom_action` that builds a fresh runnable action. -/
def sample_externals : Externals :=
  { INFINITY := 1000000
    PCMK_OCF_NOT_RUNNING := 7
    XML_LRM_ATTR_INTERVAL_MS := "interval"
    XML_ATTR_TE_TARGET_RC := "op_target_rc"
    safe_str_eq := fun a b => decide (a = b)
    safe_str_neq := fun a b => decide (a ≠ b)
    crm_itoa := fun i => toString i
    compare_capacity := fun _ _ _ => 0
    pe__is_guest_node := fun _ _ => false
    PCMK_LRM_OP_DONE := 0
    PCMK_LRM_OP_PENDING := -1
    CRMD_ACTION_MIGRATE := "migrate_to"
    CRMD_ACTION_MIGRATED := "migrate_from"
    XML_LRM_ATTR_MIGRATE_SOURCE := "migrate_source"
    XML_LRM_ATTR_MIGRATE_TARGET := "migrate_target"
    crm_str_eq := fun a b _ => decide (a = b)
    generate_op_key := fun rsc task interval => rsc ++ "_" ++ task ++ "_" ++ toString interval
    generate_notify_key := fun rsc n_type n_task =>
      match n_type, n_task with
      | some t, some o => some (rsc ++ "_" ++ t ++ "_notify_" ++ o ++ "_0")
      | _, _ => none
    generate_transition_key := fun transition_id action_id target_rc node =>
      toString action_id ++ ":" ++ toString transition_id ++ ":" ++ toString target_rc ++ ":" ++ node
    did_rsc_op_fail := fun op target_rc => decide (op.rc ≠ target_rc)
    crm_meta_value := fun params field =>
      match params with
      | some table => table.lookup field
      | none => none
    compare_version := fun _ _ => -1
    filter_action_parameters := fun args _ => args
    calculate_operation_digest := fun args _ =>
      some (String.join (args.map fun kv => kv.1 ++ "=" ++ kv.2 ++ ";"))
    custom_action := fun _ _ key task on_node optional _ _ =>
      { uuid := key, task := task, meta := [],
        flags := { pseudo := false, runnable := true, optional := optional,
                   processed := false, clear := false },
        node := on_node } }

/-- Node details with every eligibility attribute favourable and nothing assigned. -/
def sample_details (uname : String) (online : Bool) (num_resources : Int) : pe_node_shared_t :=
  { id := uname, uname := uname, online := online, shutdown := false, unclean := false,
    standby := false, maintenance := false, num_resources := num_resources,
    allocated_rsc := [], utilization := fun _ => 0 }

/-- A details heap with three cluster nodes: `node1` (address 1, online, one
resource), `node2` (address 2, online, no resource) and `node0` (address 3,
offline). -/
def sample_heap : Nat → pe_node_shared_t := fun p =>
  if p = 1 then sample_details "node1" true 1
  else if p = 2 then sample_details "node2" true 0
  else sample_details "node0" false 0

/-- Three nodes of `sample_heap`, all of weight 0 except the offline one. -/
def sample_nodes : List pe_node_t :=
  [{ weight := 0, count := 0, details := 1 }, { weight := 0, count := 0, details := 2 },
   { weight := 5, count := 0, details := 3 }]

/-- A primitive resource with no assigned node, role started, one pending stop
action, and a requirement of two units of `cpu`. -/
def sample_rsc : pe_resource_t :=
  { id := "rsc1", variant := pe_obj_types.pe_native, provisional := true, allocated_to := none,
    next_role := rsc_role_e.RSC_ROLE_STARTED,
    actions := [{ uuid := "rsc1_stop_0", task := "stop", meta := [],
                  flags := { pseudo := false, runnable := true, optional := false,
                             processed := false, clear := false } }],
    utilization := fun k => if k = "cpu" then 2 else 0 }

/-- A state whose details heap is `sample_heap` and whose resources are all
`sample_rsc`. -/
def sample_state : State := { details := sample_heap, rscs := fun _ => sample_rsc }

/-- The state `sample_state` with the pending stop action of every resource
flagged optional. -/
def sample_state_optional_stop : State :=
  { details := sample_heap
    rscs := fun _ =>
      { sample_rsc with
        actions := [{ uuid := "rsc1_stop_0", task := "stop", meta := [],
                      flags := { pseudo := false, runnable := true, optional := true,
                                 processed := false, clear := false } }] } }

/-- An outcome for resource `rsc1` with transition key `k`, call id 3, no
parameters and no timing data. -/
def sample_op (op_type : String) (op_status rc : Int) (interval_ms : Nat) : lrmd_event_data_t :=
  { rsc_id := "rsc1", op_type := op_type, user_data := some "k", call_id := 3, rc := rc,
    op_status := op_status, interval_ms := interval_ms, t_run := 0, t_rcchange := 0,
    exec_time := 0, queue_time := 0, params := none, exit_reason := none }

/-- Comparator data with no current assignment and the given strategy. -/
def sample_nw (strategy : Option String) : node_weight_s :=
  { active := none, data_set := { placement_strategy := strategy } }

/-- An action of `rsc1` with every flag but `pseudo` and `clear` raised. -/
def sample_action (task : String) (attrs : List (String × String)) : pe_action_t :=
  { uuid := "rsc1_" ++ task, task := task, meta := attrs,
    flags := { pseudo := false, runnable := true, optional := true,
               processed := true, clear := false } }

/-- The state `sample_state` where every resource has four pending actions: a
start, a recurring monitor expecting success, a recurring monitor expecting
"not running", and a promote without interval. -/
def sample_state_actions : State :=
  { details := sample_heap
    rscs := fun _ =>
      { sample_rsc with
        actions := [sample_action "start" [],
                    sample_action "monitor" [("interval", "10000"), ("op_target_rc", "0")],
                    sample_action "monitor" [("interval", "20000"), ("op_target_rc", "7")],
                    sample_action "promote" [("interval", "0")]] } }

/-- A state where resource 7 is assigned to the node at address 1 and recorded
there, and nothing else is assigned. -/
def sample_ledger_state : State :=
  { details := fun p =>
      if p = 1 then { sample_details "node1" true 1 with allocated_rsc := [7] }
      else sample_details "node2" true 0
    rscs := fun r =>
      if r = 7 then { sample_rsc with provisional := false,
                                      allocated_to := some { weight := 0, count := 1, details := 1 } }
      else sample_rsc }

/-! ## Facts about `strcmp` -/

theorem strcmpChars_range (a b : List Char) :
    strcmpChars a b = -1 ∨ strcmpChars a b = 0 ∨ strcmpChars a b = 1 := by
  induction a generalizing b with
  | nil => cases b <;> simp [strcmpChars]
  | cons c cs ih =>
    cases b with
    | nil => simp [strcmpChars]
    | cons e es =>
      simp only [strcmpChars]
      split
      · simp
      · split
        · simp
        · exact ih es

theorem strcmpChars_eq_zero (a b : List Char) : strcmpChars a b = 0 ↔ a = b := by
  induction a generalizing b with
  | nil => cases b <;> simp [strcmpChars]
  | cons c cs ih =>
    cases b with
    | nil => simp [strcmpChars]
    | cons e es =>
      simp only [strcmpChars]
      split
      · rename_i h
        simp only [List.cons.injEq]
        constructor
        · intro h0; omega
        · rintro ⟨rfl, -⟩; exact absurd h (lt_irrefl _)
      · split
        · rename_i h
          simp only [List.cons.injEq]
          constructor
          · intro h0; omega
          · rintro ⟨rfl, -⟩; exact absurd h (lt_irrefl _)
        · rename_i h1 h2
          have hce : c = e := le_antisymm (not_lt.mp h2) (not_lt.mp h1)
          simp [hce, ih es]

theorem strcmpChars_swap (a b : List Char) : strcmpChars b a = -strcmpChars a b := by
  induction a generalizing b with
  | nil => cases b <;> simp [strcmpChars]
  | cons c cs ih =>
    cases b with
    | nil => simp [strcmpChars]
    | cons e es =>
      simp only [strcmpChars]
      by_cases h1 : c < e
      · have h2 : ¬ e < c := not_lt.mpr (le_of_lt h1)
        simp [h1, h2]
      · by_cases h2 : e < c
        · simp [h1, h2]
        · simp [h1, h2, ih es]

theorem strcmpChars_le_trans (a b c : List Char)
    (hab : strcmpChars a b ≤ 0) (hbc : strcmpChars b c ≤ 0) : strcmpChars a c ≤ 0 := by
  induction a generalizing b c with
  | nil => cases c <;> simp [strcmpChars]
  | cons x xs ih =>
    cases b with
    | nil => simp [strcmpChars] at hab
    | cons y ys =>
      cases c with
      | nil => simp [strcmpChars] at hbc
      | cons z zs =>
        simp only [strcmpChars] at hab hbc ⊢
        by_cases hxy : x < y
        · by_cases hyz : y < z
          · simp [lt_trans hxy hyz]
          · by_cases hzy : z < y
            · simp [hyz, hzy] at hbc
            · have hyz2 : y = z := le_antisymm (not_lt.mp hzy) (not_lt.mp hyz)
              subst hyz2
              simp [hxy]
        · by_cases hyx : y < x
          · simp [hxy, hyx] at hab
          · have hxy2 : x = y := le_antisymm (not_lt.mp hyx) (not_lt.mp hxy)
            subst hxy2
            simp only [hxy, if_false] at hab
            by_cases hxz : x < z
            · simp [hxz]
            · by_cases hzx : z < x
              · simp [hxz, hzx] at hbc
              · simp only [hxz, hzx, if_false] at hbc ⊢
                exact ih ys zs hab hbc

theorem strcmp_range (a b : String) : strcmp a b = -1 ∨ strcmp a b = 0 ∨ strcmp a b = 1 :=
  strcmpChars_range _ _

theorem strcmp_eq_zero (a b : String) : strcmp a b = 0 ↔ a = b := by
  unfold strcmp
  rw [strcmpChars_eq_zero]
  constructor
  · intro h; exact String.ext h
  · intro h; rw [h]

theorem strcmp_swap (a b : String) : strcmp b a = -strcmp a b :=
  strcmpChars_swap _ _

theorem strcmp_le_trans (a b c : String)
    (hab : strcmp a b ≤ 0) (hbc : strcmp b c ≤ 0) : strcmp a c ≤ 0 :=
  strcmpChars_le_trans _ _ _ hab hbc

theorem strcmp_lt_trans (a b c : String)
    (hab : strcmp a b < 0) (hbc : strcmp b c < 0) : strcmp a c < 0 := by
  have hle := strcmp_le_trans a b c (le_of_lt hab) (le_of_lt hbc)
  rcases lt_or_eq_of_le hle with h | h
  · exact h
  · have hac : a = c := (strcmp_eq_zero a c).mp h
    subst hac
    have := strcmp_swap a b
    omega

/-! ## Unfolding the comparator -/

theorem sort_node_weight_minimal (E : Externals) (d : Nat → pe_node_shared_t)
    (a b : pe_node_t) (nw : node_weight_s)
    (hmin : E.safe_str_eq nw.data_set.placement_strategy (some "minimal") = true) :
    sort_node_weight E d (some a) (some b) nw =
      if effective_weight E d a > effective_weight E d b then -1
      else if effective_weight E d a < effective_weight E d b then 1
      else strcmp (node_name d a) (node_name d b) := by
  simp only [sort_node_weight, effective_weight, node_name, hmin, if_true]

theorem sort_node_weight_default (E : Externals) (d : Nat → pe_node_shared_t)
    (a b : pe_node_t) (nw : node_weight_s)
    (hmin : E.safe_str_eq nw.data_set.placement_strategy (some "minimal") = false)
    (hbal : E.safe_str_eq nw.data_set.placement_strategy (some "balanced") = false) :
    sort_node_weight E d (some a) (some b) nw =
      if effective_weight E d a > effective_weight E d b then -1
      else if effective_weight E d a < effective_weight E d b then 1
      else tie_break d nw a b := by
  simp only [sort_node_weight, effective_weight, tie_break, node_name, is_active, hmin, hbal]
  cases nw.active with
  | none => simp
  | some act => simp

theorem sort_node_weight_balanced (E : Externals) (d : Nat → pe_node_shared_t)
    (a b : pe_node_t) (nw : node_weight_s)
    (hmin : E.safe_str_eq nw.data_set.placement_strategy (some "minimal") = false)
    (hbal : E.safe_str_eq nw.data_set.placement_strategy (some "balanced") = true) :
    sort_node_weight E d (some a) (some b) nw =
      if effective_weight E d a > effective_weight E d b then -1
      else if effective_weight E d a < effective_weight E d b then 1
      else if E.compare_capacity d a b < 0 then -1
      else if E.compare_capacity d a b > 0 then 1
      else tie_break d nw a b := by
  simp only [sort_node_weight, effective_weight, tie_break, node_name, is_active, hmin, hbal]
  cases nw.active with
  | none => simp
  | some act => simp

theorem tie_break_ne_zero (d : Nat → pe_node_shared_t) (nw : node_weight_s) (a b : pe_node_t)
    (hne : (d a.details).uname ≠ (d b.details).uname) : tie_break d nw a b ≠ 0 := by
  have hs : strcmp (node_name d a) (node_name d b) ≠ 0 := fun h =>
    hne ((strcmp_eq_zero _ _).mp h)
  unfold tie_break
  generalize strcmp (node_name d a) (node_name d b) = s at hs ⊢
  split_ifs <;> first | exact hs | decide

/-! ## Order properties of the tie-break -/

theorem is_active_same_details (nw : node_weight_s) (a b : pe_node_t)
    (ha : is_active nw a = true) (hb : is_active nw b = true) : a.details = b.details := by
  unfold is_active at ha hb
  cases h : nw.active with
  | none => simp [h] at ha
  | some act =>
    simp only [h, decide_eq_true_eq] at ha hb
    rw [← ha, ← hb]

theorem tie_break_swap (d : Nat → pe_node_shared_t) (nw : node_weight_s) (a b : pe_node_t)
    (hne : (d a.details).uname ≠ (d b.details).uname) :
    tie_break d nw b a = -tie_break d nw a b := by
  have hnot : ¬ (is_active nw a = true ∧ is_active nw b = true) := fun h =>
    hne (by rw [is_active_same_details nw a b h.1 h.2])
  have hsw := strcmp_swap (node_name d a) (node_name d b)
  unfold tie_break
  generalize strcmp (node_name d a) (node_name d b) = s at hsw ⊢
  generalize strcmp (node_name d b) (node_name d a) = t at hsw ⊢
  generalize is_active nw a = ia at hnot ⊢
  generalize is_active nw b = ib at hnot ⊢
  split_ifs <;> first | omega | (exfalso; exact hnot ⟨‹_›, ‹_›⟩)

theorem tie_break_lt_trans (d : Nat → pe_node_shared_t) (nw : node_weight_s) (a b c : pe_node_t)
    (hab : tie_break d nw a b < 0) (hbc : tie_break d nw b c < 0) : tie_break d nw a c < 0 := by
  have hstr := strcmp_lt_trans (node_name d a) (node_name d b) (node_name d c)
  unfold tie_break at hab hbc ⊢
  generalize strcmp (node_name d a) (node_name d b) = sab at hstr hab
  generalize strcmp (node_name d b) (node_name d c) = sbc at hstr hbc
  generalize strcmp (node_name d a) (node_name d c) = sac at hstr ⊢
  generalize is_active nw a = ia at hab ⊢
  generalize is_active nw b = ib at hab hbc
  generalize is_active nw c = ic at hbc ⊢
  split_ifs at hab hbc ⊢ <;> omega

theorem tie_break_le_trans (d : Nat → pe_node_shared_t) (nw : node_weight_s) (a b c : pe_node_t)
    (hab : tie_break d nw a b ≤ 0) (hbc : tie_break d nw b c ≤ 0) : tie_break d nw a c ≤ 0 := by
  have hstr := strcmp_le_trans (node_name d a) (node_name d b) (node_name d c)
  unfold tie_break at hab hbc ⊢
  generalize strcmp (node_name d a) (node_name d b) = sab at hstr hab
  generalize strcmp (node_name d b) (node_name d c) = sbc at hstr hbc
  generalize strcmp (node_name d a) (node_name d c) = sac at hstr ⊢
  generalize is_active nw a = ia at hab ⊢
  generalize is_active nw b = ib at hab hbc
  generalize is_active nw c = ic at hbc ⊢
  split_ifs at hab hbc ⊢ <;> omega

theorem tie_break_le_total (d : Nat → pe_node_shared_t) (nw : node_weight_s) (a b : pe_node_t) :
    tie_break d nw a b ≤ 0 ∨ tie_break d nw b a ≤ 0 := by
  have hsw := strcmp_swap (node_name d a) (node_name d b)
  unfold tie_break
  generalize strcmp (node_name d a) (node_name d b) = s at hsw ⊢
  generalize strcmp (node_name d b) (node_name d a) = t at hsw ⊢
  generalize is_active nw a = ia
  generalize is_active nw b = ib
  split_ifs <;> omega

/-! ## Order properties of the comparator without capacity comparison -/

theorem sort_node_weight_not_balanced (E : Externals) (d : Nat → pe_node_shared_t)
    (a b : pe_node_t) (nw : node_weight_s)
    (hs : E.safe_str_eq nw.data_set.placement_strategy (some "minimal") = true ∨
      E.safe_str_eq nw.data_set.placement_strategy (some "balanced") = false) :
    sort_node_weight E d (some a) (some b) nw =
      if effective_weight E d a > effective_weight E d b then -1
      else if effective_weight E d a < effective_weight E d b then 1
      else tail_cmp E d nw a b := by
  cases hmin : E.safe_str_eq nw.data_set.placement_strategy (some "minimal") with
  | true => rw [sort_node_weight_minimal E d a b nw hmin]; simp [tail_cmp, hmin]
  | false =>
    have hbal : E.safe_str_eq nw.data_set.placement_strategy (some "balanced") = false := by
      rcases hs with h | h
      · rw [hmin] at h; exact absurd h (by decide)
      · exact h
    rw [sort_node_weight_default E d a b nw hmin hbal]; simp [tail_cmp, hmin]

theorem tail_cmp_swap (E : Externals) (d : Nat → pe_node_shared_t) (nw : node_weight_s)
    (a b : pe_node_t) (hne : (d a.details).uname ≠ (d b.details).uname) :
    tail_cmp E d nw b a = -tail_cmp E d nw a b := by
  unfold tail_cmp
  split
  · exact strcmp_swap _ _
  · exact tie_break_swap d nw a b hne

theorem tail_cmp_lt_trans (E : Externals) (d : Nat → pe_node_shared_t) (nw : node_weight_s)
    (a b c : pe_node_t) (hab : tail_cmp E d nw a b < 0) (hbc : tail_cmp E d nw b c < 0) :
    tail_cmp E d nw a c < 0 := by
  unfold tail_cmp at hab hbc ⊢
  split at hab
  · rename_i h
    simp only [h, if_true] at hbc ⊢
    exact strcmp_lt_trans _ _ _ hab hbc
  · rename_i h
    simp only [h, if_false] at hbc ⊢
    exact tie_break_lt_trans d nw a b c hab hbc

theorem tail_cmp_le_trans (E : Externals) (d : Nat → pe_node_shared_t) (nw : node_weight_s)
    (a b c : pe_node_t) (hab : tail_cmp E d nw a b ≤ 0) (hbc : tail_cmp E d nw b c ≤ 0) :
    tail_cmp E d nw a c ≤ 0 := by
  unfold tail_cmp at hab hbc ⊢
  split at hab
  · rename_i h
    simp only [h, if_true] at hbc ⊢
    exact strcmp_le_trans _ _ _ hab hbc
  · rename_i h
    simp only [h, if_false] at hbc ⊢
    exact tie_break_le_trans d nw a b c hab hbc

theorem tail_cmp_le_total (E : Externals) (d : Nat → pe_node_shared_t) (nw : node_weight_s)
    (a b : pe_node_t) : tail_cmp E d nw a b ≤ 0 ∨ tail_cmp E d nw b a ≤ 0 := by
  unfold tail_cmp
  split
  · have := strcmp_swap (node_name d a) (node_name d b)
    omega
  · exact tie_break_le_total d nw a b

theorem sort_node_weight_le_total (E : Externals) (d : Nat → pe_node_shared_t)
    (nw : node_weight_s)
    (hs : E.safe_str_eq nw.data_set.placement_strategy (some "minimal") = true ∨
      E.safe_str_eq nw.data_set.placement_strategy (some "balanced") = false)
    (a b : pe_node_t) :
    sort_node_weight E d (some a) (some b) nw ≤ 0 ∨
      sort_node_weight E d (some b) (some a) nw ≤ 0 := by
  rw [sort_node_weight_not_balanced E d a b nw hs, sort_node_weight_not_balanced E d b a nw hs]
  have ht := tail_cmp_le_total E d nw a b
  generalize tail_cmp E d nw a b = tab at ht ⊢
  generalize tail_cmp E d nw b a = tba at ht ⊢
  generalize effective_weight E d a = wa
  generalize effective_weight E d b = wb
  split_ifs <;> omega

theorem sort_node_weight_le_trans (E : Externals) (d : Nat → pe_node_shared_t)
    (nw : node_weight_s)
    (hs : E.safe_str_eq nw.data_set.placement_strategy (some "minimal") = true ∨
      E.safe_str_eq nw.data_set.placement_strategy (some "balanced") = false)
    (a b c : pe_node_t)
    (hab : sort_node_weight E d (some a) (some b) nw ≤ 0)
    (hbc : sort_node_weight E d (some b) (some c) nw ≤ 0) :
    sort_node_weight E d (some a) (some c) nw ≤ 0 := by
  rw [sort_node_weight_not_balanced E d _ _ nw hs] at hab hbc ⊢
  have ht := tail_cmp_le_trans E d nw a b c
  generalize tail_cmp E d nw a b = tab at ht hab
  generalize tail_cmp E d nw b c = tbc at ht hbc
  generalize tail_cmp E d nw a c = tac at ht ⊢
  generalize effective_weight E d a = wa at hab ⊢
  generalize effective_weight E d b = wb at hab hbc
  generalize effective_weight E d c = wc at hbc ⊢
  split_ifs at hab hbc ⊢ <;> omega

theorem sort_node_weight_lt_trans (E : Externals) (d : Nat → pe_node_shared_t)
    (nw : node_weight_s)
    (hs : E.safe_str_eq nw.data_set.placement_strategy (some "minimal") = true ∨
      E.safe_str_eq nw.data_set.placement_strategy (some "balanced") = false)
    (a b c : pe_node_t)
    (hab : sort_node_weight E d (some a) (some b) nw < 0)
    (hbc : sort_node_weight E d (some b) (some c) nw < 0) :
    sort_node_weight E d (some a) (some c) nw < 0 := by
  rw [sort_node_weight_not_balanced E d _ _ nw hs] at hab hbc ⊢
  have ht := tail_cmp_lt_trans E d nw a b c
  generalize tail_cmp E d nw a b = tab at ht hab
  generalize tail_cmp E d nw b c = tbc at ht hbc
  generalize tail_cmp E d nw a c = tac at ht ⊢
  generalize effective_weight E d a = wa at hab ⊢
  generalize effective_weight E d b = wb at hab hbc
  generalize effective_weight E d c = wc at hbc ⊢
  split_ifs at hab hbc ⊢ <;> omega

theorem sort_node_weight_swap (E : Externals) (d : Nat → pe_node_shared_t)
    (nw : node_weight_s)
    (hs : E.safe_str_eq nw.data_set.placement_strategy (some "minimal") = true ∨
      E.safe_str_eq nw.data_set.placement_strategy (some "balanced") = false)
    (a b : pe_node_t) (hne : (d a.details).uname ≠ (d b.details).uname) :
    sort_node_weight E d (some b) (some a) nw = -sort_node_weight E d (some a) (some b) nw := by
  rw [sort_node_weight_not_balanced E d a b nw hs, sort_node_weight_not_balanced E d b a nw hs]
  have ht := tail_cmp_swap E d nw a b hne
  generalize tail_cmp E d nw a b = tab at ht ⊢
  generalize tail_cmp E d nw b a = tba at ht ⊢
  generalize effective_weight E d a = wa
  generalize effective_weight E d b = wb
  split_ifs <;> omega

/-! ## The list sort -/

theorem g_list_sort_merge_pairwise {α : Type} (cmp : α → α → Int) (S : α → Prop)
    (htot : ∀ a b, S a → S b → cmp a b ≤ 0 ∨ cmp b a ≤ 0)
    (htr : ∀ a b c, S a → S b → S c → cmp a b ≤ 0 → cmp b c ≤ 0 → cmp a c ≤ 0) :
    ∀ l1 l2 : List α, (∀ x ∈ l1, S x) → (∀ x ∈ l2, S x) →
      l1.Pairwise (fun x y => cmp x y ≤ 0) → l2.Pairwise (fun x y => cmp x y ≤ 0) →
      (g_list_sort_merge cmp l1 l2).Pairwise (fun x y => cmp x y ≤ 0) := by
  intro l1
  induction l1 with
  | nil =>
    intro l2 _ _ _ h2
    simpa [g_list_sort_merge] using h2
  | cons x xs ihx =>
    intro l2
    induction l2 with
    | nil =>
      intro _ _ h1 _
      simpa [g_list_sort_merge] using h1
    | cons y ys ihy =>
      intro hS1 hS2 h1 h2
      have hx : S x := hS1 x (List.mem_cons_self _ _)
      have hy : S y := hS2 y (List.mem_cons_self _ _)
      have hxs : ∀ z ∈ xs, S z := fun z hz => hS1 z (List.mem_cons_of_mem _ hz)
      have hys : ∀ z ∈ ys, S z := fun z hz => hS2 z (List.mem_cons_of_mem _ hz)
      obtain ⟨hx_all, hxs_pw⟩ := List.pairwise_cons.mp h1
      obtain ⟨hy_all, hys_pw⟩ := List.pairwise_cons.mp h2
      unfold g_list_sort_merge
      rw [List.cons_merge_cons]
      by_cases hxy : cmp x y ≤ 0
      · simp only [hxy, decide_True, if_true]
        refine List.pairwise_cons.mpr ⟨?_, ihx (y :: ys) hxs hS2 hxs_pw h2⟩
        intro z hz
        rcases List.mem_merge.mp hz with hz | hz
        · exact hx_all z hz
        · rcases List.mem_cons.mp hz with rfl | hz
          · exact hxy
          · exact htr x y z hx hy (hys z hz) hxy (hy_all z hz)
      · simp only [hxy, decide_False, Bool.false_eq_true, if_false]
        have hyx : cmp y x ≤ 0 := (htot x y hx hy).resolve_left hxy
        refine List.pairwise_cons.mpr ⟨?_, ihy hS1 hys h1 hys_pw⟩
        intro z hz
        rcases List.mem_merge.mp hz with hz | hz
        · rcases List.mem_cons.mp hz with rfl | hz
          · exact hyx
          · exact htr y x z hy hx (hxs z hz) hyx (hx_all z hz)
        · exact hy_all z hz

theorem g_list_sort_real_perm {α : Type} (cmp : α → α → Int) :
    ∀ (fuel : Nat) (l : List α), (g_list_sort_real cmp fuel l).Perm l := by
  intro fuel
  induction fuel with
  | zero => intro l; exact List.Perm.refl _
  | succ n ih =>
    intro l
    unfold g_list_sort_real
    split
    · exact List.Perm.refl _
    · unfold g_list_sort_merge
      refine (List.merge_perm_append _).trans ?_
      have h := (ih (l.take (l.length / 2))).append (ih (l.drop (l.length / 2)))
      rwa [List.take_append_drop] at h

theorem g_list_sort_real_pairwise {α : Type} (cmp : α → α → Int) (S : α → Prop)
    (htot : ∀ a b, S a → S b → cmp a b ≤ 0 ∨ cmp b a ≤ 0)
    (htr : ∀ a b c, S a → S b → S c → cmp a b ≤ 0 → cmp b c ≤ 0 → cmp a c ≤ 0) :
    ∀ (fuel : Nat) (l : List α), l.length ≤ fuel → (∀ x ∈ l, S x) →
      (g_list_sort_real cmp fuel l).Pairwise (fun x y => cmp x y ≤ 0) := by
  intro fuel
  induction fuel with
  | zero =>
    intro l hl _
    have : l = [] := List.length_eq_zero.mp (Nat.le_zero.mp hl)
    subst this
    simp [g_list_sort_real]
  | succ n ih =>
    intro l hl hS
    unfold g_list_sort_real
    split
    · rename_i hlt
      match l, hlt with
      | [], _ => exact List.Pairwise.nil
      | [x], _ => exact List.pairwise_singleton _ _
      | _ :: _ :: _, hlt => exact absurd hlt (by simp)
    · rename_i hge
      have htake : ∀ x ∈ l.take (l.length / 2), S x := fun x hx => hS x (List.mem_of_mem_take hx)
      have hdrop : ∀ x ∈ l.drop (l.length / 2), S x := fun x hx => hS x (List.mem_of_mem_drop hx)
      have hlen1 : (l.take (l.length / 2)).length ≤ n := by
        rw [List.length_take]; omega
      have hlen2 : (l.drop (l.length / 2)).length ≤ n := by
        rw [List.length_drop]; omega
      apply g_list_sort_merge_pairwise cmp S htot htr
      · intro x hx
        exact htake x ((g_list_sort_real_perm cmp n _).mem_iff.mp hx)
      · intro x hx
        exact hdrop x ((g_list_sort_real_perm cmp n _).mem_iff.mp hx)
      · exact ih _ hlen1 htake
      · exact ih _ hlen2 hdrop

theorem g_list_sort_real_of_pairwise {α : Type} (cmp : α → α → Int) :
    ∀ (fuel : Nat) (l : List α), l.Pairwise (fun x y => cmp x y ≤ 0) →
      g_list_sort_real cmp fuel l = l := by
  intro fuel
  induction fuel with
  | zero => intro l _; rfl
  | succ n ih =>
    intro l hl
    unfold g_list_sort_real
    split
    · rfl
    · have hsplit : l.take (l.length / 2) ++ l.drop (l.length / 2) = l := List.take_append_drop _ _
      have h1 : (l.take (l.length / 2)).Pairwise (fun x y => cmp x y ≤ 0) :=
        hl.sublist (List.take_sublist _ _)
      have h2 : (l.drop (l.length / 2)).Pairwise (fun x y => cmp x y ≤ 0) :=
        hl.sublist (List.drop_sublist _ _)
      have hcross : ∀ a b, a ∈ l.take (l.length / 2) → b ∈ l.drop (l.length / 2) →
          decide (cmp a b ≤ 0) = true := by
        intro a b ha hb
        rw [← hsplit] at hl
        exact decide_eq_true ((List.pairwise_append.mp hl).2.2 a ha b hb)
      rw [ih _ h1, ih _ h2]
      unfold g_list_sort_merge
      rw [List.merge_of_le hcross, hsplit]

theorem g_list_sort_with_data_idem {α : Type} (cmp : α → α → Int) (l : List α)
    (htot : ∀ a ∈ l, ∀ b ∈ l, cmp a b ≤ 0 ∨ cmp b a ≤ 0)
    (htr : ∀ a ∈ l, ∀ b ∈ l, ∀ c ∈ l, cmp a b ≤ 0 → cmp b c ≤ 0 → cmp a c ≤ 0) :
    g_list_sort_with_data (g_list_sort_with_data l cmp) cmp = g_list_sort_with_data l cmp := by
  have hsorted : (g_list_sort_with_data l cmp).Pairwise (fun x y => cmp x y ≤ 0) :=
    g_list_sort_real_pairwise cmp (fun x => x ∈ l)
      (fun a b ha hb => htot a ha b hb)
      (fun a b c ha hb hc => htr a ha b hb c hc)
      l.length l (le_refl _) (fun x hx => hx)
  exact g_list_sort_real_of_pairwise cmp _ _ hsorted

/-! ## The eligibility predicate and the comparator -/

/-- C7: `can_run_resources` is false for an absent node and for a node that is
not online, is shutting down, is unclean, is in standby or is in maintenance; it
is true for every other node; and the answer does not change with the weight (or
the counter) of the node. -/
theorem can_run_resources_spec (d : Nat → pe_node_shared_t) :
    can_run_resources d none = false ∧
    (∀ n : pe_node_t,
      ((d n.details).online = false ∨ (d n.details).shutdown = true ∨
        (d n.details).unclean = true ∨ (d n.details).standby = true ∨
        (d n.details).maintenance = true) → can_run_resources d (some n) = false) ∧
    (∀ n : pe_node_t,
      (d n.details).online = true → (d n.details).shutdown = false →
        (d n.details).unclean = false → (d n.details).standby = false →
        (d n.details).maintenance = false → can_run_resources d (some n) = true) ∧
    (∀ (n : pe_node_t) (w c : Int),
      can_run_resources d (some { n with weight := w, count := c }) =
        can_run_resources d (some n)) := by
  refine ⟨rfl, ?_, ?_, ?_⟩
  · intro n h
    simp only [can_run_resources]
    rcases h with h | h | h | h | h <;> simp [h]
  · intro n h1 h2 h3 h4 h5
    simp [can_run_resources, h1, h2, h3, h4, h5]
  · intro n w c
    simp [can_run_resources]

/-- C1 as stated fails: `node2` is online with weight minus infinity, `node0` is
offline, both end with the same effective weight and the name decides, so the
eligible node is ranked after the ineligible one. -/
theorem sort_node_weight_eligible_not_always_first :
    can_run_resources sample_heap (some { weight := -1000000, count := 0, details := 2 }) = true ∧
    can_run_resources sample_heap (some { weight := 0, count := 0, details := 3 }) = false ∧
    sort_node_weight sample_externals sample_heap
      (some { weight := -1000000, count := 0, details := 2 })
      (some { weight := 0, count := 0, details := 3 }) (sample_nw none) = 1 := by
  decide

/-- C1, amended: when A can run resources, B cannot, and the weight of A is above
minus infinity, `sort_node_weight(A, B)` is negative for every strategy, every
current assignment and every nominal weight of B. -/
theorem sort_node_weight_eligible_first (E : Externals) (d : Nat → pe_node_shared_t)
    (a b : pe_node_t) (nw : node_weight_s)
    (ha : can_run_resources d (some a) = true)
    (hb : can_run_resources d (some b) = false)
    (hw : -E.INFINITY < a.weight) :
    sort_node_weight E d (some a) (some b) nw < 0 := by
  simp only [sort_node_weight, ha, hb]
  simp [hw]

theorem sort_node_weight_eligible_first_witness :
    can_run_resources sample_heap (some { weight := -5, count := 0, details := 2 }) = true ∧
    can_run_resources sample_heap (some { weight := 100, count := 0, details := 3 }) = false ∧
    sort_node_weight sample_externals sample_heap
      (some { weight := -5, count := 0, details := 2 })
      (some { weight := 100, count := 0, details := 3 }) (sample_nw (some "balanced")) < 0 :=
  ⟨by decide, by decide,
    sort_node_weight_eligible_first sample_externals sample_heap
      { weight := -5, count := 0, details := 2 } { weight := 100, count := 0, details := 3 }
      (sample_nw (some "balanced")) (by decide) (by decide) (by decide)⟩

/-- C2: for two non-null nodes whose names differ, `sort_node_weight` is never 0,
whatever the strategy, the capacity comparison and the current assignment. -/
theorem sort_node_weight_ne_zero (E : Externals) (d : Nat → pe_node_shared_t)
    (a b : pe_node_t) (nw : node_weight_s)
    (hne : (d a.details).uname ≠ (d b.details).uname) :
    sort_node_weight E d (some a) (some b) nw ≠ 0 := by
  have hs : strcmp (node_name d a) (node_name d b) ≠ 0 := fun h =>
    hne ((strcmp_eq_zero _ _).mp h)
  have ht := tie_break_ne_zero d nw a b hne
  cases hmin : E.safe_str_eq nw.data_set.placement_strategy (some "minimal") with
  | true =>
    rw [sort_node_weight_minimal E d a b nw hmin]
    generalize strcmp (node_name d a) (node_name d b) = s at hs ⊢
    split_ifs <;> first | exact hs | decide
  | false =>
    cases hbal : E.safe_str_eq nw.data_set.placement_strategy (some "balanced") with
    | true =>
      rw [sort_node_weight_balanced E d a b nw hmin hbal]
      generalize tie_break d nw a b = t at ht ⊢
      split_ifs <;> first | exact ht | decide
    | false =>
      rw [sort_node_weight_default E d a b nw hmin hbal]
      generalize tie_break d nw a b = t at ht ⊢
      split_ifs <;> first | exact ht | decide

theorem sort_node_weight_ne_zero_witness :
    (sample_heap 1).uname ≠ (sample_heap 2).uname ∧
    sort_node_weight sample_externals sample_heap
      (some { weight := 3, count := 0, details := 1 })
      (some { weight := 3, count := 0, details := 2 }) (sample_nw (some "minimal")) ≠ 0 :=
  ⟨by decide,
    sort_node_weight_ne_zero sample_externals sample_heap
      { weight := 3, count := 0, details := 1 } { weight := 3, count := 0, details := 2 }
      (sample_nw (some "minimal")) (by decide)⟩

/-- C5 as stated fails: under the minimal strategy `node2` (no resource) and
`node1` (one resource) have the same effective weight, and `node2`, which has
strictly fewer resources, is ranked after `node1` because of its name. -/
theorem sort_node_weight_minimal_ignores_num_resources :
    sample_externals.safe_str_eq (sample_nw (some "minimal")).data_set.placement_strategy
      (some "minimal") = true ∧
    effective_weight sample_externals sample_heap { weight := 0, count := 0, details := 2 } =
      effective_weight sample_externals sample_heap { weight := 0, count := 0, details := 1 } ∧
    (sample_heap 2).num_resources < (sample_heap 1).num_resources ∧
    sort_node_weight sample_externals sample_heap
      (some { weight := 0, count := 0, details := 2 })
      (some { weight := 0, count := 0, details := 1 }) (sample_nw (some "minimal")) = 1 := by
  decide

/-- C5, amended: under the minimal strategy, two non-null nodes of equal effective
weight are ordered by `strcmp` on their names alone; the numbers of assigned
resources and the current assignment are not consulted. -/
theorem sort_node_weight_minimal_tie (E : Externals) (d : Nat → pe_node_shared_t)
    (a b : pe_node_t) (nw : node_weight_s)
    (hmin : E.safe_str_eq nw.data_set.placement_strategy (some "minimal") = true)
    (heq : effective_weight E d a = effective_weight E d b) :
    sort_node_weight E d (some a) (some b) nw =
      strcmp (d a.details).uname (d b.details).uname := by
  rw [sort_node_weight_minimal E d a b nw hmin]
  simp [heq, node_name]

theorem sort_node_weight_minimal_tie_witness :
    sample_externals.safe_str_eq (sample_nw (some "minimal")).data_set.placement_strategy
      (some "minimal") = true ∧
    effective_weight sample_externals sample_heap { weight := 0, count := 0, details := 2 } =
      effective_weight sample_externals sample_heap { weight := 0, count := 0, details := 1 } ∧
    sort_node_weight sample_externals sample_heap
      (some { weight := 0, count := 0, details := 2 })
      (some { weight := 0, count := 0, details := 1 }) (sample_nw (some "minimal")) =
      strcmp (sample_heap 2).uname (sample_heap 1).uname :=
  ⟨by decide, by decide,
    sort_node_weight_minimal_tie sample_externals sample_heap
      { weight := 0, count := 0, details := 2 } { weight := 0, count := 0, details := 1 }
      (sample_nw (some "minimal")) (by decide) (by decide)⟩

/-- C6: under the default strategy (neither minimal nor balanced), two non-null
nodes of equal effective weight are ordered by the number of assigned resources,
fewer first; when those are equal the node that is the current assignment comes
first, whatever the names; and when neither is, `strcmp` on the names decides. -/
theorem sort_node_weight_default_tie (E : Externals) (d : Nat → pe_node_shared_t)
    (a b : pe_node_t) (nw : node_weight_s)
    (hmin : E.safe_str_eq nw.data_set.placement_strategy (some "minimal") = false)
    (hbal : E.safe_str_eq nw.data_set.placement_strategy (some "balanced") = false)
    (heq : effective_weight E d a = effective_weight E d b) :
    ((d a.details).num_resources < (d b.details).num_resources →
      sort_node_weight E d (some a) (some b) nw < 0) ∧
    ((d b.details).num_resources < (d a.details).num_resources →
      sort_node_weight E d (some a) (some b) nw > 0) ∧
    ((d a.details).num_resources = (d b.details).num_resources →
      is_active nw a = true → sort_node_weight E d (some a) (some b) nw < 0) ∧
    ((d a.details).num_resources = (d b.details).num_resources →
      is_active nw a = false → is_active nw b = true →
      sort_node_weight E d (some a) (some b) nw > 0) ∧
    ((d a.details).num_resources = (d b.details).num_resources →
      is_active nw a = false → is_active nw b = false →
      sort_node_weight E d (some a) (some b) nw =
        strcmp (d a.details).uname (d b.details).uname) := by
  rw [sort_node_weight_default E d a b nw hmin hbal]
  simp only [heq, gt_iff_lt, lt_irrefl, if_false, node_name, tie_break]
  refine ⟨?_, ?_, ?_, ?_, ?_⟩
  · intro h; simp [h]
  · intro h; simp [h, not_lt.mpr (le_of_lt h)]
  · intro h ha; simp [h, ha]
  · intro h ha hb; simp [h, ha, hb]
  · intro h ha hb; simp [h, ha, hb]

theorem sort_node_weight_default_tie_witness :
    sample_externals.safe_str_eq (sample_nw none).data_set.placement_strategy
      (some "minimal") = false ∧
    sample_externals.safe_str_eq (sample_nw none).data_set.placement_strategy
      (some "balanced") = false ∧
    effective_weight sample_externals sample_heap { weight := 0, count := 0, details := 2 } =
      effective_weight sample_externals sample_heap { weight := 0, count := 0, details := 1 } ∧
    ((sample_heap 2).num_resources < (sample_heap 1).num_resources →
      sort_node_weight sample_externals sample_heap
        (some { weight := 0, count := 0, details := 2 })
        (some { weight := 0, count := 0, details := 1 }) (sample_nw none) < 0) :=
  ⟨by decide, by decide, by decide,
    (sort_node_weight_default_tie sample_externals sample_heap
      { weight := 0, count := 0, details := 2 } { weight := 0, count := 0, details := 1 }
      (sample_nw none) (by decide) (by decide) (by decide)).1⟩

/-- C3: under the default or the minimal strategy (the capacity comparison is not
consulted) and for a fixed current assignment, `sort_node_weight` is a strict
ordering of non-null nodes: for two nodes with different names the sign of
`cmp(a, b)` is the opposite of the sign of `cmp(b, a)`, and `cmp(a, b) < 0` with
`cmp(b, c) < 0` gives `cmp(a, c) < 0`.  Nodes with different names have different
details, so their identities differ as well. -/
theorem sort_node_weight_strict_order (E : Externals) (d : Nat → pe_node_shared_t)
    (nw : node_weight_s)
    (hs : E.safe_str_eq nw.data_set.placement_strategy (some "minimal") = true ∨
      E.safe_str_eq nw.data_set.placement_strategy (some "balanced") = false)
    (a b c : pe_node_t)
    (hab : (d a.details).uname ≠ (d b.details).uname)
    (hbc : (d b.details).uname ≠ (d c.details).uname)
    (hac : (d a.details).uname ≠ (d c.details).uname) :
    Int.sign (sort_node_weight E d (some a) (some b) nw) =
      -Int.sign (sort_node_weight E d (some b) (some a) nw) ∧
    (sort_node_weight E d (some a) (some b) nw < 0 →
      sort_node_weight E d (some b) (some c) nw < 0 →
      sort_node_weight E d (some a) (some c) nw < 0) := by
  constructor
  · rw [sort_node_weight_swap E d nw hs a b hab, Int.sign_neg, neg_neg]
  · exact sort_node_weight_lt_trans E d nw hs a b c

theorem sort_node_weight_strict_order_witness :
    (sample_externals.safe_str_eq (sample_nw none).data_set.placement_strategy
        (some "minimal") = true ∨
      sample_externals.safe_str_eq (sample_nw none).data_set.placement_strategy
        (some "balanced") = false) ∧
    (sample_heap 2).uname ≠ (sample_heap 1).uname ∧
    (sample_heap 1).uname ≠ (sample_heap 3).uname ∧
    (sample_heap 2).uname ≠ (sample_heap 3).uname ∧
    Int.sign (sort_node_weight sample_externals sample_heap
        (some { weight := 0, count := 0, details := 2 })
        (some { weight := 0, count := 0, details := 1 }) (sample_nw none)) =
      -Int.sign (sort_node_weight sample_externals sample_heap
        (some { weight := 0, count := 0, details := 1 })
        (some { weight := 0, count := 0, details := 2 }) (sample_nw none)) :=
  ⟨Or.inr (by decide), by decide, by decide, by decide,
    (sort_node_weight_strict_order sample_externals sample_heap (sample_nw none)
      (Or.inr (by decide))
      { weight := 0, count := 0, details := 2 } { weight := 0, count := 0, details := 1 }
      { weight := 5, count := 0, details := 3 } (by decide) (by decide) (by decide)).1⟩

/-- C4: `sort_nodes_by_weight` is idempotent.  For every list of non-null nodes,
every current assignment and every strategy for which the comparator is a
consistent ordering of the nodes of the list (`cmp ≤ 0` is total and transitive
on them), sorting the sorted list again returns it unchanged. -/
theorem sort_nodes_by_weight_idempotent (E : Externals) (d : Nat → pe_node_shared_t)
    (nodes : List pe_node_t) (active_node : Option pe_node_t) (data_set : pe_working_set_t)
    (htot : ∀ a ∈ nodes, ∀ b ∈ nodes,
      sort_node_weight E d (some a) (some b) { active := active_node, data_set := data_set } ≤ 0 ∨
      sort_node_weight E d (some b) (some a) { active := active_node, data_set := data_set } ≤ 0)
    (htr : ∀ a ∈ nodes, ∀ b ∈ nodes, ∀ c ∈ nodes,
      sort_node_weight E d (some a) (some b) { active := active_node, data_set := data_set } ≤ 0 →
      sort_node_weight E d (some b) (some c) { active := active_node, data_set := data_set } ≤ 0 →
      sort_node_weight E d (some a) (some c) { active := active_node, data_set := data_set } ≤ 0) :
    sort_nodes_by_weight E d
        (sort_nodes_by_weight E d (nodes.map some) active_node data_set) active_node data_set =
      sort_nodes_by_weight E d (nodes.map some) active_node data_set := by
  unfold sort_nodes_by_weight
  apply g_list_sort_with_data_idem
  · intro a ha b hb
    obtain ⟨a', ha', rfl⟩ := List.mem_map.mp ha
    obtain ⟨b', hb', rfl⟩ := List.mem_map.mp hb
    exact htot a' ha' b' hb'
  · intro a ha b hb c hc
    obtain ⟨a', ha', rfl⟩ := List.mem_map.mp ha
    obtain ⟨b', hb', rfl⟩ := List.mem_map.mp hb
    obtain ⟨c', hc', rfl⟩ := List.mem_map.mp hc
    exact htr a' ha' b' hb' c' hc'

theorem sort_nodes_by_weight_idempotent_witness :
    (∀ a ∈ sample_nodes, ∀ b ∈ sample_nodes,
      sort_node_weight sample_externals sample_heap (some a) (some b) (sample_nw none) ≤ 0 ∨
      sort_node_weight sample_externals sample_heap (some b) (some a) (sample_nw none) ≤ 0) ∧
    sort_nodes_by_weight sample_externals sample_heap
        (sort_nodes_by_weight sample_externals sample_heap (sample_nodes.map some) none
          { placement_strategy := none }) none { placement_strategy := none } =
      sort_nodes_by_weight sample_externals sample_heap (sample_nodes.map some) none
        { placement_strategy := none } :=
  ⟨fun a _ b _ =>
      sort_node_weight_le_total sample_externals sample_heap (sample_nw none)
        (Or.inr (by decide)) a b,
    sort_nodes_by_weight_idempotent sample_externals sample_heap sample_nodes none
      { placement_strategy := none }
      (fun a _ b _ =>
        sort_node_weight_le_total sample_externals sample_heap (sample_nw none)
          (Or.inr (by decide)) a b)
      (fun a _ b _ c _ =>
        sort_node_weight_le_trans sample_externals sample_heap (sample_nw none)
          (Or.inr (by decide)) a b c)⟩

/-! ## Assignment and deallocation -/

theorem native_deallocate_allocated_to (st : State) (rsc : Nat) :
    ((native_deallocate st rsc).rscs rsc).allocated_to = none := by
  unfold native_deallocate
  cases h : (st.rscs rsc).allocated_to with
  | none => simpa using h
  | some old => simp [State.set_rsc, State.set_details]

theorem native_deallocate_next_role (st : State) (rsc : Nat) :
    ((native_deallocate st rsc).rscs rsc).next_role = (st.rscs rsc).next_role := by
  unfold native_deallocate
  cases h : (st.rscs rsc).allocated_to with
  | none => rfl
  | some old => simp [State.set_rsc, State.set_details]

theorem native_deallocate_unassigned (st : State) (rsc : Nat)
    (h : (st.rscs rsc).allocated_to = none) : native_deallocate st rsc = st := by
  unfold native_deallocate
  simp [h]

theorem calculate_utilization_reserve_release (u r : String → Nat) :
    calculate_utilization (calculate_utilization u r false) r true = u := by
  funext key
  simp [calculate_utilization]

/-- C9: for a primitive resource, assigned or not, and any candidate list,
`native_assign_node(r, nodes, NULL, FALSE)` returns false and leaves the resource
with no assigned node and with target role stopped. -/
theorem native_assign_node_null (E : Externals) (st : State) (rsc : Nat)
    (nodes : List pe_node_t)
    (hv : (st.rscs rsc).variant = pe_obj_types.pe_native) :
    ∃ res, native_assign_node E st rsc nodes none false = some res ∧
      res.rc = false ∧
      (res.st.rscs rsc).allocated_to = none ∧
      (res.st.rscs rsc).next_role = rsc_role_e.RSC_ROLE_STOPPED := by
  simp only [native_assign_node, hv, ne_eq, not_true_eq_false, if_false]
  refine ⟨_, rfl, rfl, ?_, ?_⟩
  · simp [State.set_rsc, native_deallocate_allocated_to]
  · simp [State.set_rsc]

theorem native_assign_node_null_witness :
    (sample_state.rscs 7).variant = pe_obj_types.pe_native ∧
    ∃ res, native_assign_node sample_externals sample_state 7 sample_nodes none false = some res ∧
      res.rc = false ∧
      (res.st.rscs 7).allocated_to = none ∧
      (res.st.rscs 7).next_role = rsc_role_e.RSC_ROLE_STOPPED :=
  ⟨rfl, native_assign_node_null sample_externals sample_state 7 sample_nodes rfl⟩

/-- C10: for a primitive resource, `native_assign_node` returns true exactly when
`chosen` is non-null and either `force` is set or the weight of `chosen` is not
negative and `chosen` can run resources or is a guest node.  When it returns true
the resource is assigned to `node_copy(chosen)`, which covers a forced assignment
to a node of negative weight; when it returns false,
by the veto or because no node was given, the resource has no assigned node and
its target role is stopped. -/
theorem native_assign_node_result (E : Externals) (st : State) (rsc : Nat)
    (nodes : List pe_node_t) (chosen : Option pe_node_t) (force : Bool)
    (hv : (st.rscs rsc).variant = pe_obj_types.pe_native) :
    ∃ res, native_assign_node E st rsc nodes chosen force = some res ∧
      (res.rc = true ↔
        ∃ c, chosen = some c ∧
          (force = true ∨
            (0 ≤ c.weight ∧
              (can_run_resources st.details (some c) = true ∨
                E.pe__is_guest_node st.details c = true)))) ∧
      (res.rc = true →
        ∃ c, chosen = some c ∧ (res.st.rscs rsc).allocated_to = some (node_copy c)) ∧
      (res.rc = false →
        (res.st.rscs rsc).allocated_to = none ∧
        (res.st.rscs rsc).next_role = rsc_role_e.RSC_ROLE_STOPPED) := by
  cases chosen with
  | none =>
    simp only [native_assign_node, hv, ne_eq, not_true_eq_false, if_false]
    refine ⟨_, rfl, ?_, ?_, ?_⟩
    · simp
    · simp
    · intro _
      simp [State.set_rsc, native_deallocate_allocated_to]
  | some c =>
    cases force <;> by_cases hw : c.weight < 0 <;>
      cases hc : can_run_resources st.details (some c) <;>
      cases hg : E.pe__is_guest_node st.details c <;>
      simp only [native_assign_node, hv, ne_eq, not_true_eq_false, if_false, hw, hc, hg,
        if_true, Bool.not_true, Bool.not_false, Bool.and_self, Bool.and_true, Bool.and_false,
        Bool.false_eq_true] <;>
      refine ⟨_, rfl, ?_, ?_, ?_⟩ <;>
      simp [State.set_rsc, State.set_details, native_deallocate_allocated_to, hw, hc, hg] <;>
      omega

theorem native_assign_node_result_witness :
    (sample_state.rscs 7).variant = pe_obj_types.pe_native ∧
    ∃ res, native_assign_node sample_externals sample_state 7 sample_nodes
        (some { weight := -3, count := 0, details := 2 }) true = some res ∧
      (res.rc = true ↔
        ∃ c, some ({ weight := -3, count := 0, details := 2 } : pe_node_t) = some c ∧
          (true = true ∨
            (0 ≤ c.weight ∧
              (can_run_resources sample_state.details (some c) = true ∨
                sample_externals.pe__is_guest_node sample_state.details c = true)))) ∧
      (res.rc = true →
        ∃ c, some ({ weight := -3, count := 0, details := 2 } : pe_node_t) = some c ∧
          (res.st.rscs 7).allocated_to = some (node_copy c)) ∧
      (res.rc = false →
        (res.st.rscs 7).allocated_to = none ∧
        (res.st.rscs 7).next_role = rsc_role_e.RSC_ROLE_STOPPED) :=
  ⟨rfl, native_assign_node_result sample_externals sample_state 7 sample_nodes
    (some { weight := -3, count := 0, details := 2 }) true rfl⟩

/-- C8: reserve then release is an exact round trip.  For a primitive resource
with no assigned node and any node `n`, `native_assign_node(r, nodes, n, TRUE)`
succeeds, and `native_deallocate(r)` after it gives the details of `n` their
prior utilization vector, prior number of assigned resources and prior list of
assigned resources; the details of every node are in fact what they were.  The
utilization arithmetic is the ledger of section 4.3 of the specification. -/
theorem native_assign_then_deallocate (E : Externals) (st : State) (rsc : Nat)
    (nodes : List pe_node_t) (n : pe_node_t)
    (hv : (st.rscs rsc).variant = pe_obj_types.pe_native)
    (hun : (st.rscs rsc).allocated_to = none) :
    ∃ res, native_assign_node E st rsc nodes (some n) true = some res ∧
      res.rc = true ∧
      ((native_deallocate res.st rsc).details n.details).utilization =
        (st.details n.details).utilization ∧
      ((native_deallocate res.st rsc).details n.details).num_resources =
        (st.details n.details).num_resources ∧
      ((native_deallocate res.st rsc).details n.details).allocated_rsc =
        (st.details n.details).allocated_rsc ∧
      (native_deallocate res.st rsc).details = st.details := by
  simp only [native_assign_node, hv, ne_eq, not_true_eq_false, if_false, Bool.true_eq_false,
    Bool.false_eq_true, native_deallocate_unassigned st rsc hun]
  refine ⟨_, rfl, rfl, ?_, ?_, ?_, ?_⟩
  · funext key
    simp [native_deallocate, State.set_rsc, State.set_details, node_copy, calculate_utilization]
  · simp [native_deallocate, State.set_rsc, State.set_details, node_copy]
  · simp [native_deallocate, State.set_rsc, State.set_details, node_copy, g_list_remove,
      g_list_prepend]
  · funext p
    simp only [native_deallocate, State.set_rsc, State.set_details, node_copy, if_true]
    by_cases hp : p = n.details
    · subst hp
      simp only [if_true, g_list_remove, g_list_prepend, List.erase_cons_head,
        add_sub_cancel_right, calculate_utilization_reserve_release]
    · simp [hp]

theorem native_assign_then_deallocate_witness :
    (sample_state.rscs 7).variant = pe_obj_types.pe_native ∧
    (sample_state.rscs 7).allocated_to = none ∧
    ∃ res, native_assign_node sample_externals sample_state 7 sample_nodes
        (some { weight := 0, count := 0, details := 2 }) true = some res ∧
      res.rc = true ∧
      ((native_deallocate res.st 7).details 2).utilization = (sample_state.details 2).utilization ∧
      ((native_deallocate res.st 7).details 2).num_resources =
        (sample_state.details 2).num_resources ∧
      ((native_deallocate res.st 7).details 2).allocated_rsc =
        (sample_state.details 2).allocated_rsc ∧
      (native_deallocate res.st 7).details = sample_state.details :=
  ⟨rfl, rfl, native_assign_then_deallocate sample_externals sample_state 7 sample_nodes
    { weight := 0, count := 0, details := 2 } rfl rfl⟩

/-! ## Deallocation, location constraints, pseudo actions and stop actions -/

/-- C11: `native_deallocate` is idempotent: applying it twice leaves the heaps
(every resource and every node) exactly as applying it once does; and when the
resource has no assigned node it changes nothing at all. -/
theorem native_deallocate_idempotent (st : State) (rsc : Nat) :
    native_deallocate (native_deallocate st rsc) rsc = native_deallocate st rsc ∧
    ((st.rscs rsc).allocated_to = none → native_deallocate st rsc = st) :=
  ⟨native_deallocate_unassigned _ _ (native_deallocate_allocated_to st rsc),
    native_deallocate_unassigned st rsc⟩

theorem native_deallocate_idempotent_witness :
    (sample_state.rscs 7).allocated_to = none ∧ native_deallocate sample_state 7 = sample_state :=
  ⟨rfl, (native_deallocate_idempotent sample_state 7).2 rfl⟩

/-- C18: `rsc2node_new` returns `NULL` exactly when the resource is null, the id
is null, or no node is given and the weight is not zero.  On failure the heaps
and the working set are unchanged (so are the constraint list, the location list
and the exclusive-discovery flag); on success the new constraint is at the head
of the working set's constraint list and of the resource's location list, and,
when a node is given, its node list is one copy of that node carrying the given
weight. -/
theorem rsc2node_new_spec (E : Externals) (st : State) (id : Option String) (rsc : Option Nat)
    (node_weight : Int) (discover_mode : Option String) (foo_node : Option pe_node_t)
    (data_set : pe_working_set_t) :
    ((rsc2node_new E st id rsc node_weight discover_mode foo_node data_set).new_con = none ↔
      (rsc = none ∨ id = none ∨ (foo_node = none ∧ node_weight ≠ 0))) ∧
    ((rsc2node_new E st id rsc node_weight discover_mode foo_node data_set).new_con = none →
      (rsc2node_new E st id rsc node_weight discover_mode foo_node data_set).st = st ∧
      (rsc2node_new E st id rsc node_weight discover_mode foo_node data_set).data_set = data_set) ∧
    (∀ con, (rsc2node_new E st id rsc node_weight discover_mode foo_node data_set).new_con =
        some con →
      (rsc2node_new E st id rsc node_weight discover_mode foo_node data_set).data_set.placement_constraints =
        con :: data_set.placement_constraints ∧
      (∀ r, rsc = some r →
        ((rsc2node_new E st id rsc node_weight discover_mode foo_node data_set).st.rscs r).rsc_location =
          con :: (st.rscs r).rsc_location) ∧
      (∀ n, foo_node = some n →
        con.node_list_rh = [{ node_copy n with weight := node_weight }])) := by
  cases rsc with
  | none => simp [rsc2node_new]
  | some r =>
    cases id with
    | none => simp [rsc2node_new]
    | some i =>
      by_cases hw : (foo_node.isNone && node_weight != 0) = true
      · have hw2 : foo_node = none ∧ node_weight ≠ 0 := by
          simpa [Option.isNone_iff_eq_none] using hw
        simp [rsc2node_new, hw, hw2]
      · have hw2 : ¬ (foo_node = none ∧ node_weight ≠ 0) := by
          simpa [Option.isNone_iff_eq_none] using hw
        have hw3 : (foo_node.isNone && node_weight != 0) = false := by
          simpa using hw
        simp only [rsc2node_new, hw3, Bool.false_eq_true, if_false]
        refine ⟨?_, ?_, ?_⟩
        · simp [hw2]
        · simp
        · intro con hcon
          simp only [Option.some.injEq] at hcon
          subst hcon
          refine ⟨rfl, ?_, ?_⟩
          · intro r' hr'
            simp only [Option.some.injEq] at hr'
            subst hr'
            generalize (!(discover_mode.isNone || E.safe_str_eq discover_mode (some "always")) &&
              !(!(discover_mode.isNone || E.safe_str_eq discover_mode (some "always")) &&
                E.safe_str_eq discover_mode (some "never")) &&
              E.safe_str_eq discover_mode (some "exclusive")) = ex
            cases ex <;> simp [State.set_rsc]
          · intro n hn
            simp [hn]

theorem update_action_flags_node (a : pe_action_t) (m : pe_action_flags) :
    (update_action_flags a m).node = a.node := by
  unfold update_action_flags
  split <;> rfl

theorem update_action_flags_task (a : pe_action_t) (m : pe_action_flags) :
    (update_action_flags a m).task = a.task := by
  unfold update_action_flags
  split <;> rfl

/-- C19: the action built by `create_pseudo_resource_op` has the pseudo and the
runnable flag set and is the same for `runnable = true` and `runnable = false`;
it has no target node, given that `custom_action`, called with no node, returns
an action without one. -/
theorem create_pseudo_resource_op_spec (E : Externals) (st : State) (rsc : Nat) (task : String)
    (optional runnable : Bool) (data_set : pe_working_set_t)
    (hnode : (E.custom_action st (some rsc) (E.generate_op_key (st.rscs rsc).id task 0) task none
      optional true data_set).node = none) :
    (create_pseudo_resource_op E st rsc task optional runnable data_set).node = none ∧
    (create_pseudo_resource_op E st rsc task optional runnable data_set).flags.pseudo = true ∧
    (create_pseudo_resource_op E st rsc task optional runnable data_set).flags.runnable = true ∧
    create_pseudo_resource_op E st rsc task optional true data_set =
      create_pseudo_resource_op E st rsc task optional false data_set := by
  refine ⟨?_, ?_, ?_, ?_⟩
  · unfold create_pseudo_resource_op
    cases runnable <;> simp [update_action_flags_node, hnode]
  · cases runnable <;>
      simp [create_pseudo_resource_op, update_action_flags, pe_action_pseudo, pe_action_runnable,
        pe_action_flags.or]
  · cases runnable <;>
      simp [create_pseudo_resource_op, update_action_flags, pe_action_pseudo, pe_action_runnable,
        pe_action_flags.or]
  · simp [create_pseudo_resource_op, update_action_flags, pe_action_pseudo, pe_action_runnable,
      pe_action_flags.or]

theorem create_pseudo_resource_op_spec_witness :
    (sample_externals.custom_action sample_state (some 7)
      (sample_externals.generate_op_key (sample_state.rscs 7).id "running" 0) "running" none
      true true { placement_strategy := none }).node = none ∧
    (create_pseudo_resource_op sample_externals sample_state 7 "running" true false
      { placement_strategy := none }).node = none ∧
    (create_pseudo_resource_op sample_externals sample_state 7 "running" true false
      { placement_strategy := none }).flags.pseudo = true ∧
    (create_pseudo_resource_op sample_externals sample_state 7 "running" true false
      { placement_strategy := none }).flags.runnable = true ∧
    create_pseudo_resource_op sample_externals sample_state 7 "running" true true
        { placement_strategy := none } =
      create_pseudo_resource_op sample_externals sample_state 7 "running" true false
        { placement_strategy := none } :=
  ⟨rfl, create_pseudo_resource_op_spec sample_externals sample_state 7 "running" true false
    { placement_strategy := none } rfl⟩

theorem native_deallocate_actions (st : State) (rsc : Nat) :
    ((native_deallocate st rsc).rscs rsc).actions = (st.rscs rsc).actions := by
  unfold native_deallocate
  cases h : (st.rscs rsc).allocated_to with
  | none => rfl
  | some old => simp [State.set_rsc, State.set_details]

theorem native_assign_node_unassigned_actions (E : Externals) (st : State) (rsc : Nat)
    (nodes : List pe_node_t) (chosen : Option pe_node_t) (force : Bool) (res : assign_result)
    (h : native_assign_node E st rsc nodes chosen force = some res) (hrc : res.rc = false) :
    (res.st.rscs rsc).actions = (st.rscs rsc).actions.map (unassigned_action E) := by
  by_cases hv : (st.rscs rsc).variant = pe_obj_types.pe_native
  · cases chosen with
    | none =>
      simp only [native_assign_node, hv, ne_eq, not_true_eq_false, if_false, Bool.false_eq_true,
        Option.some.injEq] at h
      subst h
      simp [State.set_rsc, native_deallocate_actions]
    | some c =>
      cases force <;> by_cases hw : c.weight < 0 <;>
        cases hc : can_run_resources st.details (some c) <;>
        cases hg : E.pe__is_guest_node st.details c <;>
        simp only [native_assign_node, hv, ne_eq, not_true_eq_false, if_false, hw, hc, hg,
          if_true, Bool.not_true, Bool.not_false, Bool.and_self, Bool.and_true, Bool.and_false,
          Bool.false_eq_true, Bool.true_eq_false, Option.some.injEq] at h <;>
        subst h <;>
        first
          | (simp at hrc; done)
          | simp [State.set_rsc, native_deallocate_actions]
  · simp [native_assign_node, hv] at h

theorem unassigned_action_task (E : Externals) (op : pe_action_t) :
    (unassigned_action E op).task = op.task := by
  unfold unassigned_action
  dsimp only
  split_ifs <;> simp [update_action_flags_task]

theorem unassigned_action_stop (E : Externals) (op : pe_action_t)
    (hstop : E.safe_str_eq (some RSC_STOP) (some op.task) = true) :
    (unassigned_action E op).flags =
      { op.flags with optional := false, clear := false } := by
  simp [unassigned_action, hstop, update_action_flags, pe_action_flags.or, pe_action_flags.andNot,
    pe_action_optional, pe_action_clear]

/-- C20 as stated fails: a stop action that is flagged optional before
`native_assign_node(r, nodes, NULL, FALSE)` has its optional flag cleared after
the call. -/
theorem native_assign_node_stop_not_optional :
    ((sample_state_optional_stop.rscs 7).actions.map fun a => (a.task, a.flags.optional)) =
      [("stop", true)] ∧
    ((native_assign_node sample_externals sample_state_optional_stop 7 sample_nodes none false).map
      fun res => (res.rc, (res.st.rscs 7).actions.map fun a => (a.task, a.flags.optional))) =
      some (false, [("stop", false)]) := by
  decide

/-- C20, amended: when `native_assign_node` ends with `chosen` null (it returns
false), every action of the resource whose task is "stop" has its optional flag
cleared after the call: the stop is required. -/
theorem native_assign_node_stop_mandatory (E : Externals) (st : State) (rsc : Nat)
    (nodes : List pe_node_t) (chosen : Option pe_node_t) (force : Bool) (res : assign_result)
    (h : native_assign_node E st rsc nodes chosen force = some res) (hrc : res.rc = false) :
    ∀ op ∈ (res.st.rscs rsc).actions, E.safe_str_eq (some RSC_STOP) (some op.task) = true →
      op.flags.optional = false := by
  intro op hop hstop
  rw [native_assign_node_unassigned_actions E st rsc nodes chosen force res h hrc] at hop
  obtain ⟨op0, _, rfl⟩ := List.mem_map.mp hop
  rw [unassigned_action_task] at hstop
  rw [unassigned_action_stop E op0 hstop]

theorem native_assign_node_stop_mandatory_witness :
    ∃ res, native_assign_node sample_externals sample_state_optional_stop 7 sample_nodes none false =
        some res ∧ res.rc = false ∧
      ∀ op ∈ (res.st.rscs 7).actions,
        sample_externals.safe_str_eq (some RSC_STOP) (some op.task) = true →
          op.flags.optional = false :=
  ⟨_, rfl, rfl, native_assign_node_stop_mandatory sample_externals sample_state_optional_stop 7
    sample_nodes none false _ rfl rfl⟩

/-! ## The history recorder -/

/-! ## Attribute writes -/

theorem xmlNode_ext (x y : xmlNode) (h : ∀ a, x.attrs a = y.attrs a) : x = y := by
  cases x; cases y
  simp only [xmlNode.mk.injEq]
  funext a
  exact h a

theorem crm_xml_add_attrs (n : xmlNode) (b a : xml_attr) (v : Option String) :
    (crm_xml_add n b v).attrs a =
      match (if b = a then v else none) with
      | some w => some w
      | none => n.attrs a := by
  cases v with
  | none => simp [crm_xml_add]
  | some w =>
    by_cases h : b = a
    · simp [crm_xml_add, h]
    · have h2 : ¬ a = b := fun e => h e.symm
      simp [crm_xml_add, h, h2]

theorem apply_writes_attrs (ws : List (xml_attr × Option String)) (x : xmlNode) (a : xml_attr) :
    (apply_writes ws x).attrs a =
      match written ws a with
      | some w => some w
      | none => x.attrs a := by
  induction ws generalizing x with
  | nil => simp [apply_writes, written]
  | cons bv rest ih =>
    obtain ⟨b, v⟩ := bv
    have h : apply_writes ((b, v) :: rest) x = apply_writes rest (crm_xml_add x b v) := by
      simp [apply_writes]
    rw [h, ih, crm_xml_add_attrs]
    simp only [written]
    cases written rest a <;> rfl

theorem apply_writes_idem (ws : List (xml_attr × Option String)) (x : xmlNode) :
    apply_writes ws (apply_writes ws x) = apply_writes ws x := by
  apply xmlNode_ext
  intro a
  rw [apply_writes_attrs ws (apply_writes ws x), apply_writes_attrs ws x]
  cases written ws a <;> rfl

theorem apply_writes_append (ws1 ws2 : List (xml_attr × Option String)) (x : xmlNode) :
    apply_writes (ws1 ++ ws2) x = apply_writes ws2 (apply_writes ws1 x) := by
  simp [apply_writes, List.foldl_append]

theorem written_append (ws1 ws2 : List (xml_attr × Option String)) (a : xml_attr) :
    written (ws1 ++ ws2) a =
      match written ws2 a with
      | some w => some w
      | none => written ws1 a := by
  induction ws1 with
  | nil => simp [written]; cases written ws2 a <;> rfl
  | cons bv rest ih =>
    obtain ⟨b, v⟩ := bv
    rw [List.cons_append]
    simp only [written]
    rw [ih]
    cases written ws2 a <;> rfl

theorem history_fill_eq (E : Externals) (op : lrmd_event_data_t) (op_id : Option String)
    (key task user_data : String) (magic exit_reason caller_version node origin : Option String)
    (x : xmlNode) :
    history_fill E op op_id key task user_data magic exit_reason caller_version node origin x =
      apply_writes
        (history_base_writes E op op_id key task user_data magic exit_reason caller_version node
            origin ++ history_extra_writes E op caller_version) x := by
  simp only [history_fill, history_base_writes, history_extra_writes, apply_writes_append,
    append_digest, crm_xml_add_int, crm_xml_add_ms]
  cases op.params <;> split_ifs <;> simp_all [apply_writes]

theorem written_extra_none (E : Externals) (op : lrmd_event_data_t) (cv : Option String)
    (a : xml_attr)
    (h : a = xml_attr.XML_ATTR_ID ∨ a = xml_attr.XML_LRM_ATTR_TASK ∨
      a = xml_attr.XML_ATTR_TRANSITION_MAGIC ∨ a = xml_attr.XML_LRM_ATTR_CALLID ∨
      a = xml_attr.XML_LRM_ATTR_RC ∨ a = xml_attr.XML_LRM_ATTR_OPSTATUS) :
    written (history_extra_writes E op cv) a = none := by
  unfold history_extra_writes
  rcases h with rfl | rfl | rfl | rfl | rfl | rfl <;>
    cases op.params <;> simp only [written_append] <;> split_ifs <;> simp [written]

theorem history_fill_base_attr (E : Externals) (op : lrmd_event_data_t) (op_id : Option String)
    (key task user_data : String) (magic exit_reason caller_version node origin : Option String)
    (x : xmlNode) (a : xml_attr)
    (h : a = xml_attr.XML_ATTR_ID ∨ a = xml_attr.XML_LRM_ATTR_TASK ∨
      a = xml_attr.XML_ATTR_TRANSITION_MAGIC ∨ a = xml_attr.XML_LRM_ATTR_CALLID ∨
      a = xml_attr.XML_LRM_ATTR_RC ∨ a = xml_attr.XML_LRM_ATTR_OPSTATUS) :
    (history_fill E op op_id key task user_data magic exit_reason caller_version node origin
      x).attrs a =
      match written (history_base_writes E op op_id key task user_data magic exit_reason
        caller_version node origin) a with
      | some w => some w
      | none => x.attrs a := by
  rw [history_fill_eq, apply_writes_attrs, written_append, written_extra_none E op _ a h]
  try rfl

theorem history_fill_id (E : Externals) (op : lrmd_event_data_t) (op_id : Option String)
    (key task user_data : String) (magic exit_reason caller_version node origin : Option String)
    (x : xmlNode) :
    record_id (history_fill E op op_id key task user_data magic exit_reason caller_version node
      origin x) =
      match op_id with
      | some k => some k
      | none => record_id x := by
  unfold record_id crm_element_value
  rw [history_fill_base_attr E op op_id key task user_data magic exit_reason caller_version node
    origin x _ (Or.inl rfl)]
  cases op_id <;> simp [history_base_writes, written]

theorem history_fill_task (E : Externals) (op : lrmd_event_data_t) (op_id : Option String)
    (key task user_data : String) (magic exit_reason caller_version node origin : Option String)
    (x : xmlNode) :
    (history_fill E op op_id key task user_data magic exit_reason caller_version node origin
      x).attrs xml_attr.XML_LRM_ATTR_TASK = some task := by
  rw [history_fill_base_attr E op op_id key task user_data magic exit_reason caller_version node
    origin x _ (Or.inr (Or.inl rfl))]
  simp [history_base_writes, written]

theorem history_fill_magic (E : Externals) (op : lrmd_event_data_t) (op_id : Option String)
    (key task user_data : String) (m : String) (exit_reason caller_version node origin : Option String)
    (x : xmlNode) :
    (history_fill E op op_id key task user_data (some m) exit_reason caller_version node origin
      x).attrs xml_attr.XML_ATTR_TRANSITION_MAGIC = some m := by
  rw [history_fill_base_attr E op op_id key task user_data (some m) exit_reason caller_version
    node origin x _ (Or.inr (Or.inr (Or.inl rfl)))]
  simp [history_base_writes, written]

theorem history_fill_callid (E : Externals) (op : lrmd_event_data_t) (op_id : Option String)
    (key task user_data : String) (magic exit_reason caller_version node origin : Option String)
    (x : xmlNode) :
    (history_fill E op op_id key task user_data magic exit_reason caller_version node origin
      x).attrs xml_attr.XML_LRM_ATTR_CALLID = some (E.crm_itoa op.call_id) := by
  rw [history_fill_base_attr E op op_id key task user_data magic exit_reason caller_version node
    origin x _ (Or.inr (Or.inr (Or.inr (Or.inl rfl))))]
  simp [history_base_writes, written]

theorem history_fill_rc (E : Externals) (op : lrmd_event_data_t) (op_id : Option String)
    (key task user_data : String) (magic exit_reason caller_version node origin : Option String)
    (x : xmlNode) :
    (history_fill E op op_id key task user_data magic exit_reason caller_version node origin
      x).attrs xml_attr.XML_LRM_ATTR_RC = some (E.crm_itoa op.rc) := by
  rw [history_fill_base_attr E op op_id key task user_data magic exit_reason caller_version node
    origin x _ (Or.inr (Or.inr (Or.inr (Or.inr (Or.inl rfl)))))]
  simp [history_base_writes, written]

theorem history_fill_opstatus (E : Externals) (op : lrmd_event_data_t) (op_id : Option String)
    (key task user_data : String) (magic exit_reason caller_version node origin : Option String)
    (x : xmlNode) :
    (history_fill E op op_id key task user_data magic exit_reason caller_version node origin
      x).attrs xml_attr.XML_LRM_ATTR_OPSTATUS = some (E.crm_itoa op.op_status) := by
  rw [history_fill_base_attr E op op_id key task user_data magic exit_reason caller_version node
    origin x _ (Or.inr (Or.inr (Or.inr (Or.inr (Or.inr rfl)))))]
  simp [history_base_writes, written]

theorem history_fill_idem (E : Externals) (op : lrmd_event_data_t) (op_id : Option String)
    (key task user_data : String) (magic exit_reason caller_version node origin : Option String)
    (x : xmlNode) :
    history_fill E op op_id key task user_data magic exit_reason caller_version node origin
        (history_fill E op op_id key task user_data magic exit_reason caller_version node origin
          x) =
      history_fill E op op_id key task user_data magic exit_reason caller_version node origin
        x := by
  rw [history_fill_eq, history_fill_eq, apply_writes_idem]

theorem history_fill_matches (E : Externals) (op : lrmd_event_data_t) (op_id : Option String)
    (key task user_data : String) (magic exit_reason caller_version node origin : Option String)
    (x : xmlNode) :
    id_matches op_id (history_fill E op op_id key task user_data magic exit_reason caller_version
      node origin x) = true := by
  cases op_id with
  | none => rfl
  | some k =>
    have h := history_fill_id E op (some k) key task user_data magic exit_reason caller_version
      node origin x
    simp only [record_id] at h
    simp [id_matches, h]

theorem history_fill_keeps_id (E : Externals) (op : lrmd_event_data_t) (op_id : Option String)
    (key task user_data : String) (magic exit_reason caller_version node origin : Option String)
    (x : xmlNode) (hx : id_matches op_id x = true) :
    record_id (history_fill E op op_id key task user_data magic exit_reason caller_version node
      origin x) = record_id x := by
  rw [history_fill_id]
  cases op_id with
  | none => rfl
  | some k =>
    simp only [id_matches, decide_eq_true_eq] at hx
    simp [record_id, hx]

/-! ## One pass over the store -/

theorem history_pass_found (fill : xmlNode → xmlNode) (id : Option String)
    (parent : List xmlNode) (i : Nat) (h : find_entity parent id = some i) :
    history_pass parent id fill = (parent.set i (fill (parent.getD i xml_empty)), i) := by
  simp [history_pass, h]

theorem history_pass_created (fill : xmlNode → xmlNode) (id : Option String)
    (parent : List xmlNode) (h : find_entity parent id = none) :
    history_pass parent id fill =
      ((parent ++ [xml_empty]).set parent.length
        (fill ((parent ++ [xml_empty]).getD parent.length xml_empty)), parent.length) := by
  simp [history_pass, h, create_xml_node]

theorem history_pass_eq_write_entity (fill : xmlNode → xmlNode) (id : Option String)
    (parent : List xmlNode) : history_pass parent id fill = write_entity fill id parent := by
  induction parent with
  | nil => simp [history_pass, find_entity, create_xml_node, write_entity]
  | cons a rest ih =>
    by_cases hm : id_matches id a = true
    · have hf : find_entity (a :: rest) id = some 0 := by simp [find_entity, hm]
      rw [history_pass_found fill id _ 0 hf]
      simp [write_entity, hm]
    · cases hf : find_entity rest id with
      | none =>
        have hf2 : find_entity (a :: rest) id = none := by simp [find_entity, hm, hf]
        rw [history_pass_created fill id _ hf2]
        rw [history_pass_created fill id _ hf] at ih
        simp only [write_entity, hm, if_false, Bool.false_eq_true, ← ih]
        simp
      | some i =>
        have hf2 : find_entity (a :: rest) id = some (i + 1) := by simp [find_entity, hm, hf]
        rw [history_pass_found fill id _ _ hf2]
        rw [history_pass_found fill id _ _ hf] at ih
        simp only [write_entity, hm, if_false, Bool.false_eq_true, ← ih]
        simp

theorem write_entity_not_found (fill : xmlNode → xmlNode) (id : Option String)
    (l : List xmlNode) (h : ∀ y ∈ l, id_matches id y = false) :
    write_entity fill id l = (l ++ [fill xml_empty], l.length) := by
  induction l with
  | nil => rfl
  | cons a rest ih =>
    have ha : id_matches id a = false := h a (List.mem_cons_self _ _)
    have hrest : ∀ y ∈ rest, id_matches id y = false := fun y hy =>
      h y (List.mem_cons_of_mem _ hy)
    simp [write_entity, ha, ih hrest]

theorem write_entity_idem (fill : xmlNode → xmlNode) (id : Option String)
    (hF : ∀ x, fill (fill x) = fill x) (hm : ∀ x, id_matches id (fill x) = true)
    (l : List xmlNode) :
    write_entity fill id (write_entity fill id l).1 = write_entity fill id l := by
  induction l with
  | nil => simp [write_entity, hm, hF]
  | cons a rest ih =>
    by_cases ha : id_matches id a = true
    · simp [write_entity, ha, hm, hF]
    · simp [write_entity, ha, ih]

theorem write_entity_fixed (fill : xmlNode → xmlNode) (id : Option String) (l : List xmlNode)
    (h : first_match_fixed fill id l) : (write_entity fill id l).1 = l := by
  induction l with
  | nil => exact absurd h (by simp [first_match_fixed])
  | cons a rest ih =>
    by_cases ha : id_matches id a = true
    · simp only [first_match_fixed, ha, if_true] at h
      simp [write_entity, ha, h]
    · have ha2 : id_matches id a = false := by simpa using ha
      simp only [first_match_fixed, ha2, Bool.false_eq_true, if_false] at h
      simp [write_entity, ha2, ih h]

theorem first_match_fixed_write (fill : xmlNode → xmlNode) (id : Option String)
    (hF : ∀ x, fill (fill x) = fill x) (hm : ∀ x, id_matches id (fill x) = true)
    (l : List xmlNode) : first_match_fixed fill id (write_entity fill id l).1 := by
  induction l with
  | nil => simp [write_entity, first_match_fixed, hm, hF]
  | cons a rest ih =>
    by_cases ha : id_matches id a = true
    · simp [write_entity, first_match_fixed, ha, hm, hF]
    · simp [write_entity, first_match_fixed, ha, ih]

theorem first_match_fixed_other (f1 f2 : xmlNode → xmlNode) (id1 id2 : Option String)
    (h12 : ∀ x, id_matches id1 x = true → id_matches id2 x = false)
    (h21 : ∀ x, id_matches id1 (f2 x) = false)
    (l : List xmlNode) (h : first_match_fixed f1 id1 l) :
    first_match_fixed f1 id1 (write_entity f2 id2 l).1 := by
  induction l with
  | nil => exact absurd h (by simp [first_match_fixed])
  | cons a rest ih =>
    by_cases ha : id_matches id1 a = true
    · simp only [first_match_fixed, ha, if_true] at h
      simp [write_entity, h12 a ha, first_match_fixed, ha, h]
    · have ha2 : id_matches id1 a = false := by simpa using ha
      simp only [first_match_fixed, ha2, Bool.false_eq_true, if_false] at h
      by_cases hb : id_matches id2 a = true
      · simp [write_entity, hb, first_match_fixed, h21, h]
      · simp [write_entity, hb, first_match_fixed, ha2, ih h]

theorem write_entity_get (fill : xmlNode → xmlNode) (id : Option String) (l : List xmlNode) :
    ∃ x, (write_entity fill id l).1[(write_entity fill id l).2]? = some (fill x) ∧
      (x = xml_empty ∨ x ∈ l) := by
  induction l with
  | nil => exact ⟨xml_empty, by simp [write_entity], Or.inl rfl⟩
  | cons a rest ih =>
    by_cases ha : id_matches id a = true
    · exact ⟨a, by simp [write_entity, ha], Or.inr (List.mem_cons_self _ _)⟩
    · obtain ⟨x, hx, hmem⟩ := ih
      refine ⟨x, by simpa [write_entity, ha] using hx, ?_⟩
      rcases hmem with h | h
      · exact Or.inl h
      · exact Or.inr (List.mem_cons_of_mem _ h)

theorem write_entity_keeps (fill : xmlNode → xmlNode) (id : Option String) (l : List xmlNode)
    (y : xmlNode) (hy : y ∈ l) (hn : id_matches id y = false) :
    y ∈ (write_entity fill id l).1 := by
  induction l with
  | nil => exact absurd hy (List.not_mem_nil _)
  | cons a rest ih =>
    by_cases ha : id_matches id a = true
    · rcases List.mem_cons.mp hy with h | h
      · subst h
        rw [hn] at ha
        exact absurd ha (by decide)
      · simp [write_entity, ha, h]
    · rcases List.mem_cons.mp hy with h | h
      · simp [write_entity, ha, h]
      · simp [write_entity, ha, ih h]

theorem write_entity_mem (fill : xmlNode → xmlNode) (id : Option String) (l : List xmlNode)
    (y : xmlNode) (hy : y ∈ (write_entity fill id l).1) : y ∈ l ∨ ∃ x, y = fill x := by
  induction l with
  | nil =>
    simp only [write_entity, List.mem_singleton] at hy
    exact Or.inr ⟨xml_empty, hy⟩
  | cons a rest ih =>
    by_cases ha : id_matches id a = true
    · simp only [write_entity, ha, if_true, List.mem_cons] at hy
      rcases hy with h | h
      · exact Or.inr ⟨a, h⟩
      · exact Or.inl (List.mem_cons_of_mem _ h)
    · have ha2 : id_matches id a = false := by simpa using ha
      simp only [write_entity, ha2, Bool.false_eq_true, if_false, List.mem_cons] at hy
      rcases hy with h | h
      · exact Or.inl (by simp [h])
      · rcases ih h with h2 | h2
        · exact Or.inl (List.mem_cons_of_mem _ h2)
        · exact Or.inr h2

theorem write_entity_mem_fill (fill : xmlNode → xmlNode) (id : Option String) (l : List xmlNode) :
    ∃ x, fill x ∈ (write_entity fill id l).1 := by
  obtain ⟨x, hx, _⟩ := write_entity_get fill id l
  exact ⟨x, List.getElem?_mem hx⟩

theorem record_ids_write (fill : xmlNode → xmlNode) (id : Option String)
    (hID : ∀ x, id_matches id x = true → record_id (fill x) = record_id x)
    (l : List xmlNode) :
    record_ids (write_entity fill id l).1 =
      if l.any (id_matches id) = true then record_ids l
      else record_ids l ++ [record_id (fill xml_empty)] := by
  induction l with
  | nil => simp [write_entity, record_ids]
  | cons a rest ih =>
    by_cases ha : id_matches id a = true
    · simp [write_entity, ha, record_ids, hID a ha]
    · have ha2 : id_matches id a = false := by simpa using ha
      simp only [record_ids] at ih
      simp only [write_entity, ha2, Bool.false_eq_true, if_false, record_ids, List.map_cons,
        List.any_cons, Bool.false_or, ih]
      split <;> simp

theorem write_entity_filter (fill : xmlNode → xmlNode) (id : Option String) (p : xmlNode → Bool)
    (hfill : ∀ x, p (fill x) = false) (hmatch : ∀ x, id_matches id x = true → p x = false)
    (l : List xmlNode) : (write_entity fill id l).1.filter p = l.filter p := by
  induction l with
  | nil => simp [write_entity, hfill]
  | cons a rest ih =>
    by_cases ha : id_matches id a = true
    · simp [write_entity, ha, List.filter_cons, hfill, hmatch a ha]
    · simp [write_entity, ha, List.filter_cons, ih]

/-! ## The recorder as passes over the store -/

theorem pcmk__create_history_xml_single (E : Externals) (parent : List xmlNode)
    (o : lrmd_event_data_t) (cv : Option String) (target_rc : Int) (node origin : Option String)
    (level : Int) (h : (history_selection E o target_rc).op_id_additional = none) :
    pcmk__create_history_xml E parent (some o) cv target_rc node origin level =
      { parent := (write_entity
            (history_fill_of E o cv target_rc node origin (history_selection E o target_rc).op_id)
            (history_selection E o target_rc).op_id parent).1
        op := some (history_selection E o target_rc).op
        xml_op := some (write_entity
            (history_fill_of E o cv target_rc node origin (history_selection E o target_rc).op_id)
            (history_selection E o target_rc).op_id parent).2 } := by
  unfold history_selection at h
  simp only [pcmk__create_history_xml, history_pass_eq_write_entity, history_fill_of,
    history_selection, history_user_data, history_magic, h]

theorem pcmk__create_history_xml_dual (E : Externals) (parent : List xmlNode)
    (o : lrmd_event_data_t) (cv : Option String) (target_rc : Int) (node origin : Option String)
    (level : Int) (id2 : String)
    (h : (history_selection E o target_rc).op_id_additional = some id2) :
    pcmk__create_history_xml E parent (some o) cv target_rc node origin level =
      { parent := (write_entity (history_fill_of E o cv target_rc node origin (some id2))
            (some id2)
            (write_entity
              (history_fill_of E o cv target_rc node origin
                (history_selection E o target_rc).op_id)
              (history_selection E o target_rc).op_id parent).1).1
        op := some (history_selection E o target_rc).op
        xml_op := some (write_entity (history_fill_of E o cv target_rc node origin (some id2))
            (some id2)
            (write_entity
              (history_fill_of E o cv target_rc node origin
                (history_selection E o target_rc).op_id)
              (history_selection E o target_rc).op_id parent).1).2 } := by
  unfold history_selection at h
  simp only [pcmk__create_history_xml, history_pass_eq_write_entity, history_fill_of,
    history_selection, history_user_data, history_magic, h]

/-! ## The key selection, case by case -/

theorem history_selection_success (E : Externals) (o : lrmd_event_data_t) (target_rc : Int)
    (hnot : E.crm_str_eq (some (history_task E o)) (some CRMD_ACTION_NOTIFY) true = false)
    (hok : E.did_rsc_op_fail o target_rc = false) (hint : o.interval_ms = 0) :
    (history_selection E o target_rc).op_id = some (E.generate_op_key o.rsc_id "last" 0) ∧
    (history_selection E o target_rc).op_id_additional = none ∧
    (history_selection E o target_rc).op = o := by
  simp [history_selection, history_select_key, hnot, hok, hint]

theorem history_selection_failure (E : Externals) (o : lrmd_event_data_t) (target_rc : Int)
    (hnot : E.crm_str_eq (some (history_task E o)) (some CRMD_ACTION_NOTIFY) true = false)
    (hfail : E.did_rsc_op_fail o target_rc = true) (hint : o.interval_ms = 0) :
    (history_selection E o target_rc).op_id =
      some (E.generate_op_key o.rsc_id "last_failure" 0) ∧
    (history_selection E o target_rc).op_id_additional =
      some (E.generate_op_key o.rsc_id "last" 0) ∧
    (history_selection E o target_rc).op = o := by
  simp [history_selection, history_select_key, hnot, hfail, hint]

theorem history_selection_additional (E : Externals) (o : lrmd_event_data_t) (target_rc : Int)
    (id2 : String) (h : (history_selection E o target_rc).op_id_additional = some id2) :
    (history_selection E o target_rc).op_id =
      some (E.generate_op_key o.rsc_id "last_failure" 0) ∧
    id2 = E.generate_op_key o.rsc_id "last" 0 := by
  unfold history_selection history_select_key at h ⊢
  split_ifs at h ⊢
  all_goals simp_all

theorem history_selection_recurring (E : Externals) (o : lrmd_event_data_t) (target_rc : Int)
    (hint : 0 < o.interval_ms) :
    (history_selection E o target_rc).op_id_additional = none := by
  have h : o.interval_ms ≠ 0 := Nat.pos_iff_ne_zero.mp hint
  unfold history_selection history_select_key
  split_ifs <;> simp_all

theorem history_selection_reference (E : Externals) (o : lrmd_event_data_t) (target_rc : Int) :
    (history_selection E o target_rc).op_id = key_selection_reference E o target_rc := by
  unfold history_selection history_select_key key_selection_reference
  split_ifs <;> simp_all

theorem history_magic_of_key (E : Externals) (o : lrmd_event_data_t) (target_rc : Int)
    (k : String) (hsel : (history_selection E o target_rc).op = o) (hk : o.user_data = some k) :
    history_magic E o target_rc = some (printf_d o.op_status ++ ":" ++ printf_d o.rc ++ ";" ++ k) := by
  simp [history_magic, history_user_data, hsel, hk, generate_transition_magic]

theorem history_magic_isSome (E : Externals) (o : lrmd_event_data_t) (target_rc : Int) :
    ∃ m, history_magic E o target_rc = some m := by
  simp [history_magic, generate_transition_magic]

theorem some_ne_of_ne {a b : String} (h : a ≠ b) : (some a : Option String) ≠ some b :=
  fun e => h (Option.some.inj e)

theorem id_matches_some (k : String) (x : xmlNode) :
    id_matches (some k) x = true ↔ record_id x = some k := by
  simp [id_matches, record_id]

theorem id_matches_some_false (k : String) (x : xmlNode) :
    id_matches (some k) x = false ↔ record_id x ≠ some k := by
  simp [id_matches, record_id]

theorem printf_d_zero : printf_d 0 = "0" := by decide

theorem history_fill_of_id (E : Externals) (o : lrmd_event_data_t) (cv : Option String)
    (target_rc : Int) (node origin : Option String) (k : String) (x : xmlNode) :
    record_id (history_fill_of E o cv target_rc node origin (some k) x) = some k := by
  unfold history_fill_of
  rw [history_fill_id]

/-! ## The two records of a failed non-recurring outcome -/

theorem history_failure_store (E : Externals) (parent : List xmlNode)
    (o : lrmd_event_data_t) (cv : Option String) (target_rc : Int) (node origin : Option String)
    (level : Int)
    (hint : o.interval_ms = 0)
    (hnot : E.crm_str_eq (some (history_task E o)) (some CRMD_ACTION_NOTIFY) true = false)
    (hfail : E.did_rsc_op_fail o target_rc = true)
    (hkeys : E.generate_op_key o.rsc_id "last" 0 ≠ E.generate_op_key o.rsc_id "last_failure" 0) :
    ∃ x0 y0 i,
      (pcmk__create_history_xml E parent (some o) cv target_rc node origin level).xml_op =
        some i ∧
      (pcmk__create_history_xml E parent (some o) cv target_rc node origin level).parent[i]? =
        some (history_fill_of E o cv target_rc node origin
          (some (E.generate_op_key o.rsc_id "last" 0)) y0) ∧
      history_fill_of E o cv target_rc node origin
          (some (E.generate_op_key o.rsc_id "last_failure" 0)) x0 ∈
        (pcmk__create_history_xml E parent (some o) cv target_rc node origin level).parent := by
  obtain ⟨hid, hadd, _⟩ := history_selection_failure E o target_rc hnot hfail hint
  rw [pcmk__create_history_xml_dual E parent o cv target_rc node origin level _ hadd, hid]
  obtain ⟨x0, hx0⟩ := write_entity_mem_fill
    (history_fill_of E o cv target_rc node origin
      (some (E.generate_op_key o.rsc_id "last_failure" 0)))
    (some (E.generate_op_key o.rsc_id "last_failure" 0)) parent
  obtain ⟨y0, hy0, _⟩ := write_entity_get
    (history_fill_of E o cv target_rc node origin (some (E.generate_op_key o.rsc_id "last" 0)))
    (some (E.generate_op_key o.rsc_id "last" 0))
    (write_entity
      (history_fill_of E o cv target_rc node origin
        (some (E.generate_op_key o.rsc_id "last_failure" 0)))
      (some (E.generate_op_key o.rsc_id "last_failure" 0)) parent).1
  refine ⟨x0, y0, _, rfl, hy0, ?_⟩
  apply write_entity_keeps _ _ _ _ hx0
  rw [id_matches_some_false]
  unfold history_fill_of
  rw [history_fill_id]
  exact some_ne_of_ne (Ne.symm hkeys)

/-! ## Recording twice -/

theorem history_fill_of_idem (E : Externals) (o : lrmd_event_data_t) (cv : Option String)
    (target_rc : Int) (node origin : Option String) (id : Option String) (x : xmlNode) :
    history_fill_of E o cv target_rc node origin id
        (history_fill_of E o cv target_rc node origin id x) =
      history_fill_of E o cv target_rc node origin id x := by
  unfold history_fill_of
  rw [history_fill_idem]

theorem history_fill_of_matches (E : Externals) (o : lrmd_event_data_t) (cv : Option String)
    (target_rc : Int) (node origin : Option String) (id : Option String) (x : xmlNode) :
    id_matches id (history_fill_of E o cv target_rc node origin id x) = true := by
  unfold history_fill_of
  rw [history_fill_matches]

theorem history_fill_of_keeps_id (E : Externals) (o : lrmd_event_data_t) (cv : Option String)
    (target_rc : Int) (node origin : Option String) (id : Option String) (x : xmlNode)
    (hx : id_matches id x = true) :
    record_id (history_fill_of E o cv target_rc node origin id x) = record_id x := by
  unfold history_fill_of
  rw [history_fill_keeps_id _ _ _ _ _ _ _ _ _ _ _ _ hx]

theorem record_ids_nodup_write (fill : xmlNode → xmlNode) (id : Option String)
    (hID : ∀ x, id_matches id x = true → record_id (fill x) = record_id x)
    (hnew : ∀ k, id = some k → record_id (fill xml_empty) = some k)
    (l : List xmlNode) (h : (record_ids l).Nodup) :
    (record_ids (write_entity fill id l).1).Nodup := by
  rw [record_ids_write fill id hID]
  split
  · exact h
  · rename_i hany
    have hnone : ∀ y ∈ l, id_matches id y = false := by
      intro y hy
      cases hm : id_matches id y with
      | false => rfl
      | true => exact absurd (List.any_eq_true.mpr ⟨y, hy, hm⟩) hany
    refine List.Nodup.append h (List.nodup_singleton _) ?_
    intro v hv hv2
    rw [List.mem_singleton] at hv2
    subst hv2
    obtain ⟨y, hy, hyv⟩ := List.mem_map.mp hv
    cases id with
    | none => exact absurd (hnone y hy) (by simp [id_matches])
    | some k =>
      rw [hnew k rfl] at hyv
      have := hnone y hy
      rw [id_matches_some_false] at this
      exact this hyv

theorem record_ids_mem_write (fill : xmlNode → xmlNode) (k : String)
    (hnew : ∀ x, record_id (fill x) = some k) (l : List xmlNode) :
    some k ∈ record_ids (write_entity fill (some k) l).1 := by
  obtain ⟨x, hx⟩ := write_entity_mem_fill fill (some k) l
  exact List.mem_map.mpr ⟨_, hx, hnew x⟩

theorem countP_eq_one_of_nodup (l : List (Option String)) (a : Option String)
    (h : l.Nodup) (ha : a ∈ l) : l.countP (fun i => decide (i = a)) = 1 := by
  induction l with
  | nil => exact absurd ha (List.not_mem_nil a)
  | cons b rest ih =>
    obtain ⟨hb, hrest⟩ := List.nodup_cons.mp h
    by_cases hba : b = a
    · subst hba
      have hz : rest.countP (fun i => decide (i = b)) = 0 := by
        rw [List.countP_eq_zero]
        intro x hx
        simp only [decide_eq_true_eq]
        intro e
        exact hb (e ▸ hx)
      simp [List.countP_cons, hz]
    · have hmem : a ∈ rest := by
        rcases List.mem_cons.mp ha with e | e
        · exact absurd e.symm hba
        · exact e
      simp [List.countP_cons, hba, ih hrest hmem]

/-! ## Key selection and task normalization -/

theorem history_returned_record (E : Externals) (parent : List xmlNode)
    (o : lrmd_event_data_t) (cv : Option String) (target_rc : Int) (node origin : Option String)
    (level : Int) :
    ∃ i id y0,
      (pcmk__create_history_xml E parent (some o) cv target_rc node origin level).xml_op =
        some i ∧
      (pcmk__create_history_xml E parent (some o) cv target_rc node origin level).parent[i]? =
        some (history_fill_of E o cv target_rc node origin id y0) := by
  cases hadd : (history_selection E o target_rc).op_id_additional with
  | none =>
    rw [pcmk__create_history_xml_single E _ o cv target_rc node origin level hadd]
    obtain ⟨y0, hy0, _⟩ := write_entity_get
      (history_fill_of E o cv target_rc node origin (history_selection E o target_rc).op_id)
      (history_selection E o target_rc).op_id parent
    exact ⟨_, _, y0, rfl, hy0⟩
  | some id2 =>
    rw [pcmk__create_history_xml_dual E _ o cv target_rc node origin level _ hadd]
    obtain ⟨y0, hy0, _⟩ := write_entity_get
      (history_fill_of E o cv target_rc node origin (some id2)) (some id2)
      (write_entity
        (history_fill_of E o cv target_rc node origin (history_selection E o target_rc).op_id)
        (history_selection E o target_rc).op_id parent).1
    exact ⟨_, _, y0, rfl, hy0⟩

/-- C12 as stated fails: a probe (a monitor with interval 0) that ends with status
done and return code 7, the expected one, did not fail, is recorded under "last",
and its transition magic is "0:7;k", not "0:0;k". -/
theorem history_success_magic_not_zero :
    (sample_op "monitor" 0 7 0).interval_ms = 0 ∧
    sample_externals.crm_str_eq (some (history_task sample_externals (sample_op "monitor" 0 7 0)))
      (some CRMD_ACTION_NOTIFY) true = false ∧
    sample_externals.did_rsc_op_fail (sample_op "monitor" 0 7 0) 7 = false ∧
    (sample_op "monitor" 0 7 0).user_data = some "k" ∧
    ((pcmk__create_history_xml sample_externals [] (some (sample_op "monitor" 0 7 0)) none 7 none
        none LOG_DEBUG).parent.map
      fun x => (record_id x, crm_element_value x xml_attr.XML_ATTR_TRANSITION_MAGIC)) =
      [(some "rsc1_last_0", some "0:7;k")] := by
  decide

/-- C12, amended: for a non-recurring, non-notify outcome of resource R that did
not fail, with transition key `k`, recorded in a store that holds no record for
R, the store afterwards is the old one followed by exactly one new record; that
record is the only record for R, it is keyed "last", it is the one returned, its
transition magic is `"<status>:<rc>;k"`, which is "0:0;k" when status and return
code are 0, and no record is keyed "last_failure".  The keys "last" and
"last_failure" of R are taken to differ. -/
theorem history_success_single_last (E : Externals) (parent : List xmlNode)
    (o : lrmd_event_data_t) (cv : Option String) (target_rc : Int) (node origin : Option String)
    (level : Int) (k : String)
    (hint : o.interval_ms = 0)
    (hnot : E.crm_str_eq (some (history_task E o)) (some CRMD_ACTION_NOTIFY) true = false)
    (hok : E.did_rsc_op_fail o target_rc = false)
    (hk : o.user_data = some k)
    (hstore : ∀ y ∈ parent, ∀ task interval,
      record_id y ≠ some (E.generate_op_key o.rsc_id task interval))
    (hkeys : E.generate_op_key o.rsc_id "last" 0 ≠ E.generate_op_key o.rsc_id "last_failure" 0) :
    ∃ x,
      (pcmk__create_history_xml E parent (some o) cv target_rc node origin level).parent =
        parent ++ [x] ∧
      (pcmk__create_history_xml E parent (some o) cv target_rc node origin level).xml_op =
        some parent.length ∧
      record_id x = some (E.generate_op_key o.rsc_id "last" 0) ∧
      crm_element_value x xml_attr.XML_ATTR_TRANSITION_MAGIC =
        some (printf_d o.op_status ++ ":" ++ printf_d o.rc ++ ";" ++ k) ∧
      (o.op_status = 0 → o.rc = 0 →
        crm_element_value x xml_attr.XML_ATTR_TRANSITION_MAGIC = some ("0:0;" ++ k)) ∧
      (∀ y ∈ parent ++ [x],
        record_id y ≠ some (E.generate_op_key o.rsc_id "last_failure" 0)) ∧
      (∀ y ∈ parent ++ [x],
        (∃ task interval, record_id y = some (E.generate_op_key o.rsc_id task interval)) →
          y = x) := by
  obtain ⟨hid, hadd, hop⟩ := history_selection_success E o target_rc hnot hok hint
  have hmagic := history_magic_of_key E o target_rc k hop hk
  have hnone : ∀ y ∈ parent,
      id_matches (some (E.generate_op_key o.rsc_id "last" 0)) y = false := fun y hy =>
    (id_matches_some_false _ _).mpr (hstore y hy "last" 0)
  rw [pcmk__create_history_xml_single E parent o cv target_rc node origin level hadd, hid,
    write_entity_not_found _ _ _ hnone]
  have hxid : record_id (history_fill_of E o cv target_rc node origin
      (some (E.generate_op_key o.rsc_id "last" 0)) xml_empty) =
      some (E.generate_op_key o.rsc_id "last" 0) := by
    unfold history_fill_of
    rw [history_fill_id]
  have hxmagic : crm_element_value (history_fill_of E o cv target_rc node origin
      (some (E.generate_op_key o.rsc_id "last" 0)) xml_empty) xml_attr.XML_ATTR_TRANSITION_MAGIC =
      some (printf_d o.op_status ++ ":" ++ printf_d o.rc ++ ";" ++ k) := by
    unfold history_fill_of crm_element_value
    rw [hmagic, history_fill_magic]
  refine ⟨_, rfl, rfl, hxid, hxmagic, ?_, ?_, ?_⟩
  · intro hs hr
    rw [hxmagic, hs, hr, printf_d_zero]
    simp only [String.append_assoc]
    rfl
  · intro y hy
    rcases List.mem_append.mp hy with h | h
    · exact hstore y h "last_failure" 0
    · rw [List.mem_singleton.mp h, hxid]
      exact some_ne_of_ne hkeys
  · intro y hy hfor
    rcases List.mem_append.mp hy with h | h
    · obtain ⟨t, i, hti⟩ := hfor
      exact absurd hti (hstore y h t i)
    · exact List.mem_singleton.mp h

theorem history_success_single_last_witness :
    (sample_op "start" 0 0 0).interval_ms = 0 ∧
    sample_externals.crm_str_eq (some (history_task sample_externals (sample_op "start" 0 0 0)))
      (some CRMD_ACTION_NOTIFY) true = false ∧
    sample_externals.did_rsc_op_fail (sample_op "start" 0 0 0) 0 = false ∧
    (sample_op "start" 0 0 0).user_data = some "k" ∧
    sample_externals.generate_op_key (sample_op "start" 0 0 0).rsc_id "last" 0 ≠
      sample_externals.generate_op_key (sample_op "start" 0 0 0).rsc_id "last_failure" 0 ∧
    ∃ x,
      (pcmk__create_history_xml sample_externals [] (some (sample_op "start" 0 0 0)) none 0 none
        none LOG_DEBUG).parent = [] ++ [x] ∧
      (pcmk__create_history_xml sample_externals [] (some (sample_op "start" 0 0 0)) none 0 none
        none LOG_DEBUG).xml_op = some ([] : List xmlNode).length ∧
      record_id x =
        some (sample_externals.generate_op_key (sample_op "start" 0 0 0).rsc_id "last" 0) ∧
      crm_element_value x xml_attr.XML_ATTR_TRANSITION_MAGIC =
        some (printf_d (sample_op "start" 0 0 0).op_status ++ ":" ++
          printf_d (sample_op "start" 0 0 0).rc ++ ";" ++ "k") ∧
      ((sample_op "start" 0 0 0).op_status = 0 → (sample_op "start" 0 0 0).rc = 0 →
        crm_element_value x xml_attr.XML_ATTR_TRANSITION_MAGIC = some ("0:0;" ++ "k")) ∧
      (∀ y ∈ [] ++ [x],
        record_id y ≠
          some (sample_externals.generate_op_key (sample_op "start" 0 0 0).rsc_id
            "last_failure" 0)) ∧
      (∀ y ∈ [] ++ [x],
        (∃ task interval, record_id y =
          some (sample_externals.generate_op_key (sample_op "start" 0 0 0).rsc_id task
            interval)) → y = x) :=
  ⟨rfl, by decide, by decide, rfl, by decide,
    history_success_single_last sample_externals [] (sample_op "start" 0 0 0) none 0 none none
      LOG_DEBUG "k" rfl (by decide) (by decide) rfl
      (fun y hy => absurd hy (List.not_mem_nil y)) (by decide)⟩

/-- C13: for a non-recurring, non-notify outcome that failed, one call of
`pcmk__create_history_xml` leaves in the store a record keyed "last_failure" and
a record keyed "last", and the two carry the same call id, return code, status
and transition magic, namely those of the outcome.  The keys "last" and
"last_failure" of the resource are taken to differ. -/
theorem history_failure_writes_both (E : Externals) (parent : List xmlNode)
    (o : lrmd_event_data_t) (cv : Option String) (target_rc : Int) (node origin : Option String)
    (level : Int)
    (hint : o.interval_ms = 0)
    (hnot : E.crm_str_eq (some (history_task E o)) (some CRMD_ACTION_NOTIFY) true = false)
    (hfail : E.did_rsc_op_fail o target_rc = true)
    (hkeys : E.generate_op_key o.rsc_id "last" 0 ≠ E.generate_op_key o.rsc_id "last_failure" 0) :
    ∃ x y,
      x ∈ (pcmk__create_history_xml E parent (some o) cv target_rc node origin level).parent ∧
      y ∈ (pcmk__create_history_xml E parent (some o) cv target_rc node origin level).parent ∧
      record_id x = some (E.generate_op_key o.rsc_id "last_failure" 0) ∧
      record_id y = some (E.generate_op_key o.rsc_id "last" 0) ∧
      crm_element_value x xml_attr.XML_LRM_ATTR_CALLID = some (E.crm_itoa o.call_id) ∧
      crm_element_value y xml_attr.XML_LRM_ATTR_CALLID = some (E.crm_itoa o.call_id) ∧
      crm_element_value x xml_attr.XML_LRM_ATTR_RC = some (E.crm_itoa o.rc) ∧
      crm_element_value y xml_attr.XML_LRM_ATTR_RC = some (E.crm_itoa o.rc) ∧
      crm_element_value x xml_attr.XML_LRM_ATTR_OPSTATUS = some (E.crm_itoa o.op_status) ∧
      crm_element_value y xml_attr.XML_LRM_ATTR_OPSTATUS = some (E.crm_itoa o.op_status) ∧
      crm_element_value x xml_attr.XML_ATTR_TRANSITION_MAGIC = history_magic E o target_rc ∧
      crm_element_value y xml_attr.XML_ATTR_TRANSITION_MAGIC = history_magic E o target_rc ∧
      (history_magic E o target_rc).isSome = true := by
  obtain ⟨_, _, hop⟩ := history_selection_failure E o target_rc hnot hfail hint
  obtain ⟨x0, y0, i, _, hy, hx⟩ :=
    history_failure_store E parent o cv target_rc node origin level hint hnot hfail hkeys
  obtain ⟨m, hm⟩ := history_magic_isSome E o target_rc
  refine ⟨_, _, hx, List.getElem?_mem hy, history_fill_of_id _ _ _ _ _ _ _ _,
    history_fill_of_id _ _ _ _ _ _ _ _, ?_, ?_, ?_, ?_, ?_, ?_, ?_, ?_, ?_⟩
  all_goals first
    | (unfold history_fill_of crm_element_value; rw [history_fill_callid, hop])
    | (unfold history_fill_of crm_element_value; rw [history_fill_rc, hop])
    | (unfold history_fill_of crm_element_value; rw [history_fill_opstatus, hop])
    | (unfold history_fill_of crm_element_value; rw [hm, history_fill_magic])
    | (rw [hm]; rfl)

theorem history_failure_writes_both_witness :
    (sample_op "monitor" 0 1 0).interval_ms = 0 ∧
    sample_externals.crm_str_eq (some (history_task sample_externals (sample_op "monitor" 0 1 0)))
      (some CRMD_ACTION_NOTIFY) true = false ∧
    sample_externals.did_rsc_op_fail (sample_op "monitor" 0 1 0) 0 = true ∧
    sample_externals.generate_op_key (sample_op "monitor" 0 1 0).rsc_id "last" 0 ≠
      sample_externals.generate_op_key (sample_op "monitor" 0 1 0).rsc_id "last_failure" 0 ∧
    ∃ x y,
      x ∈ (pcmk__create_history_xml sample_externals [] (some (sample_op "monitor" 0 1 0)) none 0
        none none LOG_DEBUG).parent ∧
      y ∈ (pcmk__create_history_xml sample_externals [] (some (sample_op "monitor" 0 1 0)) none 0
        none none LOG_DEBUG).parent ∧
      record_id x =
        some (sample_externals.generate_op_key (sample_op "monitor" 0 1 0).rsc_id
          "last_failure" 0) ∧
      record_id y =
        some (sample_externals.generate_op_key (sample_op "monitor" 0 1 0).rsc_id "last" 0) ∧
      crm_element_value x xml_attr.XML_LRM_ATTR_CALLID =
        some (sample_externals.crm_itoa (sample_op "monitor" 0 1 0).call_id) ∧
      crm_element_value y xml_attr.XML_LRM_ATTR_CALLID =
        some (sample_externals.crm_itoa (sample_op "monitor" 0 1 0).call_id) ∧
      crm_element_value x xml_attr.XML_LRM_ATTR_RC =
        some (sample_externals.crm_itoa (sample_op "monitor" 0 1 0).rc) ∧
      crm_element_value y xml_attr.XML_LRM_ATTR_RC =
        some (sample_externals.crm_itoa (sample_op "monitor" 0 1 0).rc) ∧
      crm_element_value x xml_attr.XML_LRM_ATTR_OPSTATUS =
        some (sample_externals.crm_itoa (sample_op "monitor" 0 1 0).op_status) ∧
      crm_element_value y xml_attr.XML_LRM_ATTR_OPSTATUS =
        some (sample_externals.crm_itoa (sample_op "monitor" 0 1 0).op_status) ∧
      crm_element_value x xml_attr.XML_ATTR_TRANSITION_MAGIC =
        history_magic sample_externals (sample_op "monitor" 0 1 0) 0 ∧
      crm_element_value y xml_attr.XML_ATTR_TRANSITION_MAGIC =
        history_magic sample_externals (sample_op "monitor" 0 1 0) 0 ∧
      (history_magic sample_externals (sample_op "monitor" 0 1 0) 0).isSome = true :=
  ⟨rfl, by decide, by decide, by decide,
    history_failure_writes_both sample_externals [] (sample_op "monitor" 0 1 0) none 0 none none
      LOG_DEBUG rfl (by decide) (by decide) (by decide)⟩

/-- C14 as stated fails: for a failed non-recurring monitor recorded in an empty
store, the store ends with the "last_failure" record at position 0 and the
"last" record at position 1, and the returned record is the one at position 1. -/
theorem history_failure_returns_second_record :
    (sample_op "monitor" 0 1 0).interval_ms = 0 ∧
    sample_externals.crm_str_eq (some (history_task sample_externals (sample_op "monitor" 0 1 0)))
      (some CRMD_ACTION_NOTIFY) true = false ∧
    sample_externals.did_rsc_op_fail (sample_op "monitor" 0 1 0) 0 = true ∧
    record_ids (pcmk__create_history_xml sample_externals [] (some (sample_op "monitor" 0 1 0))
      none 0 none none LOG_DEBUG).parent = [some "rsc1_last_failure_0", some "rsc1_last_0"] ∧
    (pcmk__create_history_xml sample_externals [] (some (sample_op "monitor" 0 1 0))
      none 0 none none LOG_DEBUG).xml_op = some 1 := by
  decide

/-- C14, amended: for a failing, non-recurring, non-notify outcome,
`pcmk__create_history_xml` returns the record written last, which is keyed "last"
and not "last_failure"; the record keyed "last_failure" is written first, stays
in the store, and is a different record.  The keys "last" and "last_failure" of
the resource are taken to differ. -/
theorem history_failure_returns_last (E : Externals) (parent : List xmlNode)
    (o : lrmd_event_data_t) (cv : Option String) (target_rc : Int) (node origin : Option String)
    (level : Int)
    (hint : o.interval_ms = 0)
    (hnot : E.crm_str_eq (some (history_task E o)) (some CRMD_ACTION_NOTIFY) true = false)
    (hfail : E.did_rsc_op_fail o target_rc = true)
    (hkeys : E.generate_op_key o.rsc_id "last" 0 ≠ E.generate_op_key o.rsc_id "last_failure" 0) :
    ∃ i y,
      (pcmk__create_history_xml E parent (some o) cv target_rc node origin level).xml_op =
        some i ∧
      (pcmk__create_history_xml E parent (some o) cv target_rc node origin level).parent[i]? =
        some y ∧
      record_id y = some (E.generate_op_key o.rsc_id "last" 0) ∧
      record_id y ≠ some (E.generate_op_key o.rsc_id "last_failure" 0) ∧
      ∃ x ∈ (pcmk__create_history_xml E parent (some o) cv target_rc node origin level).parent,
        record_id x = some (E.generate_op_key o.rsc_id "last_failure" 0) ∧ x ≠ y := by
  obtain ⟨x0, y0, i, hi, hy, hx⟩ :=
    history_failure_store E parent o cv target_rc node origin level hint hnot hfail hkeys
  have hidy := history_fill_of_id E o cv target_rc node origin
    (E.generate_op_key o.rsc_id "last" 0) y0
  have hidx := history_fill_of_id E o cv target_rc node origin
    (E.generate_op_key o.rsc_id "last_failure" 0) x0
  refine ⟨i, _, hi, hy, hidy, ?_, _, hx, hidx, ?_⟩
  · rw [hidy]
    exact some_ne_of_ne hkeys
  · intro e
    rw [e, hidy] at hidx
    exact hkeys (Option.some.inj hidx)

theorem history_failure_returns_last_witness :
    (sample_op "monitor" 0 1 0).interval_ms = 0 ∧
    sample_externals.crm_str_eq (some (history_task sample_externals (sample_op "monitor" 0 1 0)))
      (some CRMD_ACTION_NOTIFY) true = false ∧
    sample_externals.did_rsc_op_fail (sample_op "monitor" 0 1 0) 0 = true ∧
    sample_externals.generate_op_key (sample_op "monitor" 0 1 0).rsc_id "last" 0 ≠
      sample_externals.generate_op_key (sample_op "monitor" 0 1 0).rsc_id "last_failure" 0 ∧
    ∃ i y,
      (pcmk__create_history_xml sample_externals [] (some (sample_op "monitor" 0 1 0)) none 0
        none none LOG_DEBUG).xml_op = some i ∧
      (pcmk__create_history_xml sample_externals [] (some (sample_op "monitor" 0 1 0)) none 0
        none none LOG_DEBUG).parent[i]? = some y ∧
      record_id y =
        some (sample_externals.generate_op_key (sample_op "monitor" 0 1 0).rsc_id "last" 0) ∧
      record_id y ≠
        some (sample_externals.generate_op_key (sample_op "monitor" 0 1 0).rsc_id
          "last_failure" 0) ∧
      ∃ x ∈ (pcmk__create_history_xml sample_externals [] (some (sample_op "monitor" 0 1 0)) none
          0 none none LOG_DEBUG).parent,
        record_id x =
          some (sample_externals.generate_op_key (sample_op "monitor" 0 1 0).rsc_id
            "last_failure" 0) ∧ x ≠ y :=
  ⟨rfl, by decide, by decide, by decide,
    history_failure_returns_last sample_externals [] (sample_op "monitor" 0 1 0) none 0 none none
      LOG_DEBUG rfl (by decide) (by decide) (by decide)⟩

/-- C15: recording is an idempotent overwrite.  Calling
`pcmk__create_history_xml` a second time with the same outcome, schema version,
expected return code, node and origin leaves the store (every record, every
attribute, the digest included) and the returned position as the first call left
them; and when the record ids of the initial store are unique they are unique
afterwards, with exactly one record for each key the call writes.  The keys
"last" and "last_failure" of the resource are taken to differ. -/
theorem history_record_idempotent (E : Externals) (parent : List xmlNode)
    (o : lrmd_event_data_t) (cv : Option String) (target_rc : Int) (node origin : Option String)
    (level : Int)
    (hkeys : E.generate_op_key o.rsc_id "last" 0 ≠ E.generate_op_key o.rsc_id "last_failure" 0) :
    (pcmk__create_history_xml E
        (pcmk__create_history_xml E parent (some o) cv target_rc node origin level).parent
        (some o) cv target_rc node origin level).parent =
      (pcmk__create_history_xml E parent (some o) cv target_rc node origin level).parent ∧
    (pcmk__create_history_xml E
        (pcmk__create_history_xml E parent (some o) cv target_rc node origin level).parent
        (some o) cv target_rc node origin level).xml_op =
      (pcmk__create_history_xml E parent (some o) cv target_rc node origin level).xml_op ∧
    ((record_ids parent).Nodup →
      (record_ids
        (pcmk__create_history_xml E parent (some o) cv target_rc node origin level).parent).Nodup ∧
      ∀ k, ((history_selection E o target_rc).op_id = some k ∨
          (history_selection E o target_rc).op_id_additional = some k) →
        (record_ids
          (pcmk__create_history_xml E parent (some o) cv target_rc node origin
            level).parent).countP (fun i => decide (i = some k)) = 1) := by
  have hIDk : ∀ (id : Option String) (k : String), id = some k →
      record_id (history_fill_of E o cv target_rc node origin id xml_empty) = some k := by
    intro id k hid
    subst hid
    exact history_fill_of_id E o cv target_rc node origin k xml_empty
  cases hadd : (history_selection E o target_rc).op_id_additional with
  | none =>
    rw [pcmk__create_history_xml_single E _ o cv target_rc node origin level hadd,
      pcmk__create_history_xml_single E _ o cv target_rc node origin level hadd]
    dsimp only
    rw [write_entity_idem _ _ (history_fill_of_idem E o cv target_rc node origin _)
      (history_fill_of_matches E o cv target_rc node origin _)]
    refine ⟨rfl, rfl, ?_⟩
    intro hnd
    have hnd2 := record_ids_nodup_write _ _
      (history_fill_of_keeps_id E o cv target_rc node origin
        (history_selection E o target_rc).op_id)
      (hIDk (history_selection E o target_rc).op_id) parent hnd
    refine ⟨hnd2, ?_⟩
    intro k hk
    rcases hk with hk | hk
    · apply countP_eq_one_of_nodup _ _ hnd2
      rw [hk]
      exact record_ids_mem_write _ k
        (history_fill_of_id E o cv target_rc node origin k) parent
    · exact absurd hk (by simp)
  | some id2 =>
    obtain ⟨hid, hid2⟩ := history_selection_additional E o target_rc id2 hadd
    subst hid2
    rw [pcmk__create_history_xml_dual E _ o cv target_rc node origin level _ hadd,
      pcmk__create_history_xml_dual E _ o cv target_rc node origin level _ hadd, hid]
    dsimp only
    have hfix : first_match_fixed
        (history_fill_of E o cv target_rc node origin
          (some (E.generate_op_key o.rsc_id "last_failure" 0)))
        (some (E.generate_op_key o.rsc_id "last_failure" 0))
        (write_entity
          (history_fill_of E o cv target_rc node origin
            (some (E.generate_op_key o.rsc_id "last" 0)))
          (some (E.generate_op_key o.rsc_id "last" 0))
          (write_entity
            (history_fill_of E o cv target_rc node origin
              (some (E.generate_op_key o.rsc_id "last_failure" 0)))
            (some (E.generate_op_key o.rsc_id "last_failure" 0)) parent).1).1 := by
      apply first_match_fixed_other
      · intro x hx
        rw [id_matches_some] at hx
        rw [id_matches_some_false, hx]
        exact some_ne_of_ne (Ne.symm hkeys)
      · intro x
        rw [id_matches_some_false, history_fill_of_id]
        exact some_ne_of_ne hkeys
      · exact first_match_fixed_write _ _
          (history_fill_of_idem E o cv target_rc node origin _)
          (history_fill_of_matches E o cv target_rc node origin _) parent
    rw [write_entity_fixed _ _ _ hfix,
      write_entity_idem _ _ (history_fill_of_idem E o cv target_rc node origin _)
        (history_fill_of_matches E o cv target_rc node origin _)]
    refine ⟨rfl, rfl, ?_⟩
    intro hnd
    have hnd1 := record_ids_nodup_write _ _
      (history_fill_of_keeps_id E o cv target_rc node origin
        (some (E.generate_op_key o.rsc_id "last_failure" 0)))
      (hIDk (some (E.generate_op_key o.rsc_id "last_failure" 0))) parent hnd
    have hnd2 := record_ids_nodup_write _ _
      (history_fill_of_keeps_id E o cv target_rc node origin
        (some (E.generate_op_key o.rsc_id "last" 0)))
      (hIDk (some (E.generate_op_key o.rsc_id "last" 0))) _ hnd1
    refine ⟨hnd2, ?_⟩
    intro k hk
    apply countP_eq_one_of_nodup _ _ hnd2
    rcases hk with hk | hk
    · have hk2 : k = E.generate_op_key o.rsc_id "last_failure" 0 :=
        (Option.some.inj hk).symm
      subst hk2
      obtain ⟨x, hx⟩ := write_entity_mem_fill
        (history_fill_of E o cv target_rc node origin
          (some (E.generate_op_key o.rsc_id "last_failure" 0)))
        (some (E.generate_op_key o.rsc_id "last_failure" 0)) parent
      refine List.mem_map.mpr ⟨_, write_entity_keeps _ _ _ _ hx ?_,
        history_fill_of_id E o cv target_rc node origin _ x⟩
      rw [id_matches_some_false, history_fill_of_id]
      exact some_ne_of_ne (Ne.symm hkeys)
    · have hk2 : k = E.generate_op_key o.rsc_id "last" 0 := (Option.some.inj hk).symm
      subst hk2
      exact record_ids_mem_write _ _
        (history_fill_of_id E o cv target_rc node origin _) _

theorem history_record_idempotent_witness :
    sample_externals.generate_op_key (sample_op "monitor" 0 1 0).rsc_id "last" 0 ≠
      sample_externals.generate_op_key (sample_op "monitor" 0 1 0).rsc_id "last_failure" 0 ∧
    (pcmk__create_history_xml sample_externals
        (pcmk__create_history_xml sample_externals [] (some (sample_op "monitor" 0 1 0)) none 0
          none none LOG_DEBUG).parent
        (some (sample_op "monitor" 0 1 0)) none 0 none none LOG_DEBUG).parent =
      (pcmk__create_history_xml sample_externals [] (some (sample_op "monitor" 0 1 0)) none 0
        none none LOG_DEBUG).parent :=
  ⟨by decide,
    (history_record_idempotent sample_externals [] (sample_op "monitor" 0 1 0) none 0 none none
      LOG_DEBUG (by decide)).1⟩

/-- C16: the key selection of `pcmk__create_history_xml` is the reference one:
the notify key for a notify task whatever the return code, else "last_failure"
for a failed outcome, else the task and interval key for a recurring outcome,
else "last".  A record with the selected key is in the store after the call
(given that the keys "last" and "last_failure" differ); and an outcome with a
positive interval leaves the records keyed "last" exactly as they were, none
created and none modified (given that its selected key is not the "last" key). -/
theorem history_key_selection (E : Externals) (parent : List xmlNode)
    (o : lrmd_event_data_t) (cv : Option String) (target_rc : Int) (node origin : Option String)
    (level : Int) :
    (history_selection E o target_rc).op_id = key_selection_reference E o target_rc ∧
    (E.generate_op_key o.rsc_id "last" 0 ≠ E.generate_op_key o.rsc_id "last_failure" 0 →
      ∀ k, key_selection_reference E o target_rc = some k →
        ∃ x ∈ (pcmk__create_history_xml E parent (some o) cv target_rc node origin level).parent,
          record_id x = some k) ∧
    (0 < o.interval_ms →
      ∀ k, key_selection_reference E o target_rc = some k →
        k ≠ E.generate_op_key o.rsc_id "last" 0 →
        (pcmk__create_history_xml E parent (some o) cv target_rc node origin
            level).parent.filter
          (fun y => decide (record_id y = some (E.generate_op_key o.rsc_id "last" 0))) =
          parent.filter
            (fun y => decide (record_id y = some (E.generate_op_key o.rsc_id "last" 0)))) := by
  have href := history_selection_reference E o target_rc
  refine ⟨href, ?_, ?_⟩
  · intro hkeys k hk
    rw [← href] at hk
    cases hadd : (history_selection E o target_rc).op_id_additional with
    | none =>
      rw [pcmk__create_history_xml_single E _ o cv target_rc node origin level hadd, hk]
      obtain ⟨x, hx⟩ := write_entity_mem_fill
        (history_fill_of E o cv target_rc node origin (some k)) (some k) parent
      exact ⟨_, hx, history_fill_of_id E o cv target_rc node origin k x⟩
    | some id2 =>
      obtain ⟨hid, hid2⟩ := history_selection_additional E o target_rc id2 hadd
      subst hid2
      have hk2 : k = E.generate_op_key o.rsc_id "last_failure" 0 :=
        (Option.some.inj (hid.symm.trans hk)).symm
      subst hk2
      rw [pcmk__create_history_xml_dual E _ o cv target_rc node origin level _ hadd, hid]
      obtain ⟨x, hx⟩ := write_entity_mem_fill
        (history_fill_of E o cv target_rc node origin
          (some (E.generate_op_key o.rsc_id "last_failure" 0)))
        (some (E.generate_op_key o.rsc_id "last_failure" 0)) parent
      refine ⟨_, write_entity_keeps _ _ _ _ hx ?_,
        history_fill_of_id E o cv target_rc node origin _ x⟩
      rw [id_matches_some_false, history_fill_of_id]
      exact some_ne_of_ne (Ne.symm hkeys)
  · intro hint k hk hne
    rw [← href] at hk
    rw [pcmk__create_history_xml_single E _ o cv target_rc node origin level
      (history_selection_recurring E o target_rc hint), hk]
    apply write_entity_filter
    · intro x
      rw [history_fill_of_id]
      exact decide_eq_false (some_ne_of_ne hne)
    · intro x hx
      rw [id_matches_some] at hx
      rw [hx]
      exact decide_eq_false (some_ne_of_ne hne)

theorem history_key_selection_witness :
    (0 < (sample_op "monitor" 0 0 10000).interval_ms →
      ∀ k, key_selection_reference sample_externals (sample_op "monitor" 0 0 10000) 0 = some k →
        k ≠ sample_externals.generate_op_key (sample_op "monitor" 0 0 10000).rsc_id "last" 0 →
        (pcmk__create_history_xml sample_externals [] (some (sample_op "monitor" 0 0 10000)) none
            0 none none LOG_DEBUG).parent.filter
          (fun y => decide (record_id y =
            some (sample_externals.generate_op_key (sample_op "monitor" 0 0 10000).rsc_id
              "last" 0))) =
          ([] : List xmlNode).filter
            (fun y => decide (record_id y =
              some (sample_externals.generate_op_key (sample_op "monitor" 0 0 10000).rsc_id
                "last" 0)))) ∧
    0 < (sample_op "monitor" 0 0 10000).interval_ms ∧
    key_selection_reference sample_externals (sample_op "monitor" 0 0 10000) 0 =
      some "rsc1_monitor_10000" ∧
    "rsc1_monitor_10000" ≠
      sample_externals.generate_op_key (sample_op "monitor" 0 0 10000).rsc_id "last" 0 :=
  ⟨(history_key_selection sample_externals [] (sample_op "monitor" 0 0 10000) none 0 none none
      LOG_DEBUG).2.2,
    by decide, by decide, by decide⟩

/-- C17, at a concrete input the code departs from its own comment at lines
553-555 ("a failed reload as a monitor"): a reload that ends with status done and
return code 1 while 0 was expected has failed, the recorder itself keys it as
"last_failure" (with the additional "last" record), and both records carry task
"start", not "monitor". -/
theorem history_reload_done_recorded_as_start :
    sample_externals.crm_str_eq (some (sample_op "reload" 0 1 0).op_type) (some "reload") true =
      true ∧
    (sample_op "reload" 0 1 0).rc ≠ 0 ∧
    sample_externals.did_rsc_op_fail (sample_op "reload" 0 1 0) 0 = true ∧
    ((pcmk__create_history_xml sample_externals [] (some (sample_op "reload" 0 1 0)) none 0 none
        none LOG_DEBUG).parent.map
      fun x => crm_element_value x xml_attr.XML_LRM_ATTR_TASK) = [some "start", some "start"] ∧
    record_ids (pcmk__create_history_xml sample_externals [] (some (sample_op "reload" 0 1 0)) none
        0 none none LOG_DEBUG).parent = [some "rsc1_last_failure_0", some "rsc1_last_0"] := by
  decide

/-- The task attribute as lines 556-562 compute it: the returned record carries
`history_task`, which for a reload looks at the status of the outcome alone
("start" when done, "monitor" otherwise) and never at the return code, and for
every other task is the task of the outcome. -/
theorem history_task_normalization (E : Externals) (parent : List xmlNode)
    (o : lrmd_event_data_t) (cv : Option String) (target_rc : Int) (node origin : Option String)
    (level : Int) :
    (∃ i y,
      (pcmk__create_history_xml E parent (some o) cv target_rc node origin level).xml_op =
        some i ∧
      (pcmk__create_history_xml E parent (some o) cv target_rc node origin level).parent[i]? =
        some y ∧
      crm_element_value y xml_attr.XML_LRM_ATTR_TASK = some (history_task E o)) ∧
    (E.crm_str_eq (some o.op_type) (some "reload") true = true →
      o.op_status = E.PCMK_LRM_OP_DONE → history_task E o = "start") ∧
    (E.crm_str_eq (some o.op_type) (some "reload") true = true →
      o.op_status ≠ E.PCMK_LRM_OP_DONE → history_task E o = "monitor") ∧
    (E.crm_str_eq (some o.op_type) (some "reload") true = false →
      history_task E o = o.op_type) := by
  refine ⟨?_, ?_, ?_, ?_⟩
  · obtain ⟨i, id, y0, hi, hy⟩ :=
      history_returned_record E parent o cv target_rc node origin level
    refine ⟨i, _, hi, hy, ?_⟩
    unfold history_fill_of crm_element_value
    rw [history_fill_task]
  · intro h1 h2
    simp [history_task, h1, h2, CRMD_ACTION_START]
  · intro h1 h2
    simp [history_task, h1, h2, CRMD_ACTION_STATUS]
  · intro h1
    simp [history_task, h1]

theorem history_task_normalization_witness :
    (sample_externals.crm_str_eq (some (sample_op "reload" 4 0 0).op_type) (some "reload") true =
      true ∧
    (sample_op "reload" 4 0 0).op_status ≠ sample_externals.PCMK_LRM_OP_DONE) ∧
    history_task sample_externals (sample_op "reload" 4 0 0) = "monitor" :=
  ⟨⟨by decide, by decide⟩,
    (history_task_normalization sample_externals [] (sample_op "reload" 4 0 0) none 0 none none
      LOG_DEBUG).2.2.1 (by decide) (by decide)⟩

/-! ## The provisional flag after an assignment -/

theorem native_assign_node_returns (E : Externals) (st : State) (rsc : Nat)
    (nodes : List pe_node_t) (chosen : Option pe_node_t) (force : Bool)
    (hv : (st.rscs rsc).variant = pe_obj_types.pe_native) :
    ∃ res, native_assign_node E st rsc nodes chosen force = some res := by
  cases chosen with
  | none => simp [native_assign_node, hv]
  | some c =>
    cases force <;> by_cases hw : c.weight < 0 <;>
      cases hc : can_run_resources st.details (some c) <;>
      cases hg : E.pe__is_guest_node st.details c <;>
      simp [native_assign_node, hv, hw, hc, hg]

theorem native_assign_node_provisional (E : Externals) (st : State) (rsc : Nat)
    (nodes : List pe_node_t) (chosen : Option pe_node_t) (force : Bool) (res : assign_result)
    (h : native_assign_node E st rsc nodes chosen force = some res) :
    (res.st.rscs rsc).provisional = false := by
  by_cases hv : (st.rscs rsc).variant = pe_obj_types.pe_native
  · cases chosen with
    | none =>
      simp only [native_assign_node, hv, ne_eq, not_true_eq_false, if_false, Bool.false_eq_true,
        Option.some.injEq] at h
      subst h
      simp [State.set_rsc]
    | some c =>
      cases force <;> by_cases hw : c.weight < 0 <;>
        cases hc : can_run_resources st.details (some c) <;>
        cases hg : E.pe__is_guest_node st.details c <;>
        simp only [native_assign_node, hv, ne_eq, not_true_eq_false, if_false, hw, hc, hg,
          if_true, Bool.not_true, Bool.not_false, Bool.and_self, Bool.and_true, Bool.and_false,
          Bool.false_eq_true, Bool.true_eq_false, Option.some.injEq] at h <;>
        subst h <;>
        simp [State.set_rsc, State.set_details]
  · simp [native_assign_node, hv] at h

/-- C21 as stated fails: a provisional primitive resource is no longer
provisional after `native_assign_node(r, nodes, NULL, FALSE)`, which returns
false. -/
theorem assign_null_leaves_not_provisional :
    (sample_state.rscs 7).provisional = true ∧
    ((native_assign_node sample_externals sample_state 7 sample_nodes none false).map
      fun res => (res.rc, (res.st.rscs 7).provisional)) = some (false, false) := by
  decide

/-- C21, amended: when `native_assign_node` on a primitive resource ends with
`chosen` null (it returns false), the provisional flag of the resource is
cleared after the call. -/
theorem native_assign_node_clears_provisional (E : Externals) (st : State) (rsc : Nat)
    (nodes : List pe_node_t) (chosen : Option pe_node_t) (force : Bool)
    (hv : (st.rscs rsc).variant = pe_obj_types.pe_native) :
    ∃ res, native_assign_node E st rsc nodes chosen force = some res ∧
      (res.rc = false → (res.st.rscs rsc).provisional = false) := by
  obtain ⟨res, h⟩ := native_assign_node_returns E st rsc nodes chosen force hv
  exact ⟨res, h, fun _ => native_assign_node_provisional E st rsc nodes chosen force res h⟩

theorem native_assign_node_clears_provisional_witness :
    (sample_state.rscs 7).variant = pe_obj_types.pe_native ∧
    ∃ res, native_assign_node sample_externals sample_state 7 sample_nodes none false = some res ∧
      (res.rc = false → (res.st.rscs 7).provisional = false) :=
  ⟨rfl, native_assign_node_clears_provisional sample_externals sample_state 7 sample_nodes none
    false rfl⟩

/-! ## Action flags of a resource left unassigned -/

/-- On `sample_state_actions` the four cases are all exercised: the start and the
monitor expecting success lose the runnable flag, the monitor expecting
"not running" and the promote keep it. -/
theorem unassigned_actions_on_sample :
    ((sample_state_actions.rscs 7).actions.map fun a =>
        (a.task, is_recurring sample_externals a, expects_not_running sample_externals a,
          a.flags.runnable)) =
      [("start", false, false, true), ("monitor", true, false, true),
       ("monitor", true, true, true), ("promote", false, false, true)] ∧
    ((native_assign_node sample_externals sample_state_actions 7 sample_nodes none false).map
      fun res => (res.rc, (res.st.rscs 7).actions.map fun a => (a.task, a.flags.runnable))) =
      some (false, [("start", false), ("monitor", false), ("monitor", true),
        ("promote", true)]) := by
  decide

/-! ## Ledger consistency -/

theorem ledger_consistent_sound (st : State) (h : ledger_consistent st) : ledger_sound st := by
  obtain ⟨h1, h2, h3⟩ := h
  refine ⟨fun p => ?_, fun r p q hp hq => ?_⟩
  · rw [h1 p]; exact Int.natCast_nonneg _
  · obtain ⟨n, hn, rfl⟩ := (h2 r p).mp hp
    obtain ⟨m, hm, rfl⟩ := (h2 r q).mp hq
    rw [hn] at hm
    cases hm
    rfl

theorem ledger_consistent_congr (st st' : State) (hd : st'.details = st.details)
    (ha : ∀ r, (st'.rscs r).allocated_to = (st.rscs r).allocated_to)
    (h : ledger_consistent st) : ledger_consistent st' := by
  obtain ⟨h1, h2, h3⟩ := h
  refine ⟨fun p => ?_, fun r p => ?_, fun p => ?_⟩
  · rw [hd]; exact h1 p
  · rw [hd, ha]; exact h2 r p
  · rw [hd]; exact h3 p

theorem native_deallocate_ledger (st : State) (rsc : Nat) (h : ledger_consistent st) :
    ledger_consistent (native_deallocate st rsc) := by
  unfold native_deallocate
  cases ha : (st.rscs rsc).allocated_to with
  | none => exact h
  | some old =>
    obtain ⟨h1, h2, h3⟩ := h
    have hmem : rsc ∈ (st.details old.details).allocated_rsc := (h2 rsc old.details).mpr ⟨old, ha, rfl⟩
    refine ⟨fun p => ?_, fun r p => ?_, fun p => ?_⟩
    · by_cases hp : p = old.details
      · subst hp
        have hl := List.length_pos_of_mem hmem
        have h1p := h1 old.details
        simp [State.set_rsc, State.set_details, g_list_remove, List.length_erase_of_mem hmem]
        omega
      · simp [State.set_rsc, State.set_details, hp, h1 p]
    · by_cases hp : p = old.details
      · subst hp
        by_cases hr : r = rsc
        · subst hr
          simp [State.set_rsc, State.set_details, g_list_remove, (h3 old.details).mem_erase_iff]
        · simp [State.set_rsc, State.set_details, g_list_remove, hr, List.mem_erase_of_ne hr,
            h2 r old.details]
      · by_cases hr : r = rsc
        · subst hr
          have hno : ¬ r ∈ (st.details p).allocated_rsc := by
            intro hin
            obtain ⟨n, hn, hnp⟩ := (h2 r p).mp hin
            rw [ha] at hn
            cases hn
            exact hp hnp.symm
          simp [State.set_rsc, State.set_details, hp, hno]
        · simp [State.set_rsc, State.set_details, hp, hr, h2 r p]
    · by_cases hp : p = old.details
      · subst hp
        simp [State.set_rsc, State.set_details, g_list_remove]
        exact (h3 old.details).erase rsc
      · simp [State.set_rsc, State.set_details, hp, h3 p]

theorem ledger_consistent_assign (st st' : State) (rsc p : Nat) (n : pe_node_t)
    (h : ledger_consistent st) (ha : (st.rscs rsc).allocated_to = none) (hn : n.details = p)
    (hr : ∀ r, (st'.rscs r).allocated_to =
      if r = rsc then some n else (st.rscs r).allocated_to)
    (hl : ∀ q, (st'.details q).allocated_rsc =
      if q = p then g_list_prepend (st.details q).allocated_rsc rsc
      else (st.details q).allocated_rsc)
    (hnum : ∀ q, (st'.details q).num_resources =
      if q = p then (st.details q).num_resources + 1 else (st.details q).num_resources) :
    ledger_consistent st' := by
  obtain ⟨h1, h2, h3⟩ := h
  have hno : ∀ q, ¬ rsc ∈ (st.details q).allocated_rsc := by
    intro q hin
    obtain ⟨m, hm, _⟩ := (h2 rsc q).mp hin
    rw [ha] at hm
    cases hm
  refine ⟨fun q => ?_, fun r q => ?_, fun q => ?_⟩
  · rw [hnum, hl]
    by_cases hq : q = p
    · simp [hq, g_list_prepend, h1 p]
    · simp [hq, h1 q]
  · rw [hr, hl]
    by_cases hq : q = p <;> by_cases hrr : r = rsc
    · subst hrr; simp [hq, g_list_prepend, hn]
    · simp [hq, hrr, g_list_prepend, h2 r p]
    · subst hrr; simp [hq, hno q, hn]; exact fun e => hq e.symm
    · simp [hq, hrr, h2 r q]
  · rw [hl]
    by_cases hq : q = p
    · simp [hq, g_list_prepend, hno p, h3 p]
    · simp [hq, h3 q]

theorem native_assign_node_ledger (E : Externals) (st : State) (rsc : Nat)
    (nodes : List pe_node_t) (chosen : Option pe_node_t) (force : Bool) (res : assign_result)
    (h : native_assign_node E st rsc nodes chosen force = some res)
    (hinv : ledger_consistent st) : ledger_consistent res.st := by
  have hveto : ledger_consistent
      (st.set_rsc rsc { st.rscs rsc with next_role := rsc_role_e.RSC_ROLE_STOPPED }) := by
    refine ledger_consistent_congr st _ rfl (fun r => ?_) hinv
    by_cases hr : r = rsc <;> simp [State.set_rsc, hr]
  have hstep : ∀ S : State, ledger_consistent S →
      ∀ res : assign_result,
        (res.st.details = (native_deallocate S rsc).details ∧
          ∀ r, (res.st.rscs r).allocated_to = ((native_deallocate S rsc).rscs r).allocated_to) ∨
        (∃ c : pe_node_t,
          (∀ r, (res.st.rscs r).allocated_to =
            if r = rsc then some (node_copy c)
            else ((native_deallocate S rsc).rscs r).allocated_to) ∧
          (∀ q, (res.st.details q).allocated_rsc =
            if q = c.details then
              g_list_prepend ((native_deallocate S rsc).details q).allocated_rsc rsc
            else ((native_deallocate S rsc).details q).allocated_rsc) ∧
          (∀ q, (res.st.details q).num_resources =
            if q = c.details then ((native_deallocate S rsc).details q).num_resources + 1
            else ((native_deallocate S rsc).details q).num_resources)) →
        ledger_consistent res.st := by
    intro S hS res hres
    rcases hres with ⟨hd, ha⟩ | ⟨c, hr, hl, hnum⟩
    · exact ledger_consistent_congr _ _ hd ha (native_deallocate_ledger S rsc hS)
    · exact ledger_consistent_assign _ _ rsc c.details (node_copy c)
        (native_deallocate_ledger S rsc hS) (native_deallocate_allocated_to S rsc) rfl hr hl hnum
  by_cases hv : (st.rscs rsc).variant = pe_obj_types.pe_native
  · cases chosen with
    | none =>
      simp only [native_assign_node, hv, ne_eq, not_true_eq_false, if_false, Bool.false_eq_true,
        Option.some.injEq] at h
      subst h
      exact hstep st hinv _ (Or.inl ⟨rfl, fun r => by
        by_cases hr : r = rsc <;> simp [State.set_rsc, hr]⟩)
    | some c =>
      cases force <;> by_cases hw : c.weight < 0 <;>
        cases hc : can_run_resources st.details (some c) <;>
        cases hg : E.pe__is_guest_node st.details c <;>
        simp only [native_assign_node, hv, ne_eq, not_true_eq_false, if_false, hw, hc, hg,
          if_true, Bool.not_true, Bool.not_false, Bool.and_self, Bool.and_true, Bool.and_false,
          Bool.false_eq_true, Bool.true_eq_false, Option.some.injEq] at h <;>
        subst h <;>
        first
          | (refine hstep _ hveto _ (Or.inl ⟨?_, fun r => ?_⟩)
             · simp [State.set_rsc, hv]
             · by_cases hr : r = rsc <;> simp [State.set_rsc, hr, hv])
          | (refine hstep st hinv _ (Or.inr ⟨c, fun r => ?_, fun q => ?_, fun q => ?_⟩)
             · by_cases hr : r = rsc <;> simp [State.set_rsc, State.set_details, hr]
             · by_cases hq : q = c.details <;> simp [State.set_rsc, State.set_details, hq]
             · by_cases hq : q = c.details <;> simp [State.set_rsc, State.set_details, hq])
  · simp [native_assign_node, hv] at h

theorem sample_ledger_state_consistent : ledger_consistent sample_ledger_state := by
  refine ⟨fun p => ?_, fun r p => ?_, fun p => ?_⟩
  · by_cases hp : p = 1 <;> simp [sample_ledger_state, sample_details, hp]
  · by_cases hp : p = 1 <;> by_cases hr : r = 7 <;>
      simp [sample_ledger_state, sample_details, sample_rsc, hp, hr]
    exact fun e => hp e.symm
  · by_cases hp : p = 1 <;> simp [sample_ledger_state, sample_details, hp]

/-- C23: in a state that is ledger consistent (every node's `num_resources` is
the length of its `allocated_rsc` list, a resource is in a node's list exactly
when its `allocated_to` refers to that node, and at most once), the state after
`native_deallocate` is ledger consistent, `native_assign_node` on a primitive
resource returns for any `chosen` and `force`, and the state it returns is
ledger consistent; in each of these states no `num_resources` is negative and no
resource is listed on two nodes. -/
theorem ledger_consistent_preserved (E : Externals) (st : State) (rsc : Nat)
    (nodes : List pe_node_t) (chosen : Option pe_node_t) (force : Bool)
    (hinv : ledger_consistent st) :
    (ledger_consistent (native_deallocate st rsc) ∧ ledger_sound (native_deallocate st rsc)) ∧
    ((st.rscs rsc).variant = pe_obj_types.pe_native →
      ∃ res, native_assign_node E st rsc nodes chosen force = some res) ∧
    (∀ res, native_assign_node E st rsc nodes chosen force = some res →
      ledger_consistent res.st ∧ ledger_sound res.st) := by
  refine ⟨⟨native_deallocate_ledger st rsc hinv, ?_⟩,
    native_assign_node_returns E st rsc nodes chosen force, fun res h => ?_⟩
  · exact ledger_consistent_sound _ (native_deallocate_ledger st rsc hinv)
  · have hres := native_assign_node_ledger E st rsc nodes chosen force res h hinv
    exact ⟨hres, ledger_consistent_sound _ hres⟩

theorem ledger_consistent_preserved_witness :
    ledger_consistent sample_ledger_state ∧
    (ledger_consistent (native_deallocate sample_ledger_state 7) ∧
      ledger_sound (native_deallocate sample_ledger_state 7)) ∧
    ((sample_ledger_state.rscs 7).variant = pe_obj_types.pe_native →
      ∃ res, native_assign_node sample_externals sample_ledger_state 7 sample_nodes
        (some { weight := 0, count := 0, details := 2 }) false = some res) ∧
    (∀ res, native_assign_node sample_externals sample_ledger_state 7 sample_nodes
        (some { weight := 0, count := 0, details := 2 }) false = some res →
      ledger_consistent res.st ∧ ledger_sound res.st) :=
  ⟨sample_ledger_state_consistent,
    ledger_consistent_preserved sample_externals sample_ledger_state 7 sample_nodes
      (some { weight := 0, count := 0, details := 2 }) false sample_ledger_state_consistent⟩

/-- On `sample_ledger_state`, moving resource 7 from the node at address 1 to the
node at address 2 empties the first list and fills the second, with the counts
following. -/
theorem ledger_move_on_sample :
    ((native_assign_node sample_externals sample_ledger_state 7 sample_nodes
        (some { weight := 0, count := 0, details := 2 }) false).map fun res =>
      (res.rc, (res.st.rscs 7).allocated_to.map fun n => n.details,
        (res.st.details 1).allocated_rsc, (res.st.details 1).num_resources,
        (res.st.details 2).allocated_rsc, (res.st.details 2).num_resources)) =
      some (true, some 2, [], 0, [7], 1) := by
  decide

end Pcmk
